import Mathlib

/-!
Verification development for the sbgJammertestInsMon front-end scripts.

The repository renders live telemetry of INS units in a browser:
`app/static/script.js` defines the `INSMonitor` class (poll loop, unit
renderer, solution classifiers, byte formatting) and a second script
defines the `TrajectoryMonitor` class (per-unit trajectory paths and
current-position markers on a map).

The embedding below translates those scripts into Lean:

* DOM writes are modelled as an explicit trace of `WriteOp` effects.
  The scripts only ever read the DOM through `document.getElementById`
  followed by a presence check, and no write adds or removes an element,
  so element presence is constant during one render cycle and the trace
  semantics (`applyOps`) is equivalent to the interleaved reads/writes
  of the source.
* JavaScript values that flow into `updateElement` are modelled by
  `JsVal` together with JavaScript truthiness.  A record field that may
  be `undefined` in the data feed is an `Option`.  A field access that
  JavaScript would throw a `TypeError` on (property access on
  `undefined`) is modelled by returning `some errorMessage` in the
  second component of the render result; ops emitted before the throw
  are kept, matching the eager DOM writes of the source.
* Numbers shown on screen are modelled as rationals.  All divisions
  performed by the scripts are by powers of two (1024), which are exact
  in IEEE doubles, so the exact rational model coincides with the float
  computation for all inputs below 2^53; the decimal rendering
  (`toFixed`) is modelled as exact half-up decimal rounding, the
  behaviour the ECMAScript specification prescribes for these exact
  values.  No theorem depends on the digits of a rounded decimal other
  than through `formatBytes`, whose arithmetic is integral.
-/

/-- Quality tiers used purely for visual emphasis of a solution status
(the `solution-error` / `solution-degraded` / `solution-good` /
`solution-best` / `solution-unknown` CSS classes of the source). -/
inductive QualityTier where
  | error
  | degraded
  | good
  | best
  | unknown
deriving DecidableEq, Repr

/-- CSS suffix for a tier, as produced by the `switch` statements in
`updateGNSSMeasurements` and `updateEkfMeasurements`. -/
def tierClassName : QualityTier → String
  | QualityTier.error => "error"
  | QualityTier.degraded => "degraded"
  | QualityTier.good => "good"
  | QualityTier.best => "best"
  | QualityTier.unknown => "unknown"

/-- GNSS fix-quality classifier: the `switch (gnssMeasurements.pvt.status)`
statement of `updateGNSSMeasurements` (script.js lines 149-177), with the
CSS class factored through `QualityTier`. -/
def gnssSolutionTier (s : String) : QualityTier :=
  if s = "error" ∨ s = "exportRestrictions" then QualityTier.error
  else if s = "noSolution" ∨ s = "static" then QualityTier.degraded
  else if s = "single" ∨ s = "differential" ∨ s = "rtkFloat" ∨ s = "pppFloat" then QualityTier.good
  else if s = "sbas" ∨ s = "rtkFixed" ∨ s = "pppFixed" then QualityTier.best
  else QualityTier.unknown

/-- EKF solution-type classifier: the `switch (insSolutionType)` statement
of `updateEkfMeasurements` (script.js lines 225-261). -/
def ekfSolutionTier (s : String) : QualityTier :=
  if s = "invalid" then QualityTier.error
  else if s = "vg" ∨ s = "inertial" ∨ s = "velConst" ∨ s = "odometer" ∨ s = "airData" ∨
          s = "dvl" ∨ s = "gnssVel" ∨ s = "gnssUnknown" then QualityTier.degraded
  else if s = "singlePoint" ∨ s = "dgps" ∨ s = "sbas" ∨ s = "rtkFloat" ∨ s = "pppFloat" then
    QualityTier.good
  else if s = "rtkFixed" ∨ s = "pppFixed" then QualityTier.best
  else QualityTier.unknown

/-- JavaScript values as they reach `updateElement`. -/
inductive JsVal where
  | undef
  | null
  | bool (b : Bool)
  | num (q : ℚ)
  | str (s : String)
deriving DecidableEq, Repr

/-- JavaScript truthiness (`NaN` is not modelled; no script value here can
be `NaN`). -/
def JsVal.truthy : JsVal → Bool
  | JsVal.undef => false
  | JsVal.null => false
  | JsVal.bool b => b
  | JsVal.num q => q != 0
  | JsVal.str s => s != ""

/-- Rendering of a rational for display.  The claims never inspect the
digits of a truthy number written through `updateElement`, so the exact
shape of JavaScript number stringification is not needed; any injective
rendering works here. -/
def ratDisplay (q : ℚ) : String :=
  if q.den = 1 then toString q.num else toString q.num ++ "/" ++ toString q.den

/-- String a `JsVal` turns into when assigned to `textContent`. -/
def JsVal.display : JsVal → String
  | JsVal.undef => "undefined"
  | JsVal.null => "null"
  | JsVal.bool b => if b then ("true") else ("false")
  | JsVal.num q => ratDisplay q
  | JsVal.str s => s

/-- Truthiness of an optional string field of a data record (`undefined`
and the empty string are falsy). -/
def jsTruthyStrOpt : Option String → Bool
  | none => false
  | some s => s != ""

/-- Left-pad a digit string with zeros up to length `d`. -/
def padZeros (s : String) (d : Nat) : String :=
  (List.replicate (d - s.length) '0').asString ++ s

/-- Exact model of `Number.prototype.toFixed` on a rational: the integer
closest to `q * 10 ^ d`, ties toward the larger integer, rendered with
`d` fractional digits. -/
def qToFixed (q : ℚ) (d : Nat) : String :=
  let n : ℤ := Rat.floor (q * ((10 : ℚ) ^ d) + 1 / 2)
  let m : ℕ := n.natAbs
  (if n < 0 then ("-") else ("")) ++
    toString (m / 10 ^ d) ++
    (if d = 0 then ("") else ("." ++ padZeros (toString (m % 10 ^ d)) d))

/-- `formatCoordinate` (script.js lines 319-321): six decimals and a
degree sign, or the placeholder for `undefined`. -/
def formatCoordinate : Option ℚ → String
  | none => "--"
  | some q => qToFixed q 6 ++ "°"

/-- `formatNumber` (script.js lines 327-330): fixed decimals plus an
optional unit suffix, or the placeholder for `undefined` / `null`. -/
def formatNumber (v : Option ℚ) (decimals : Nat) (unit : String) : String :=
  match v with
  | none => "--"
  | some q => qToFixed q decimals ++ (if unit = "" then ("") else (" " ++ unit))

/-- Unit names of `formatBytes` (script.js line 333). -/
def fbUnits : List String :=
  ["bytes", "kb", "Mb", "Gb", "Tb", "Pb", "Eb", "Zb", "Yb"]

/-- Iteration count of the `while (n >= 1024)` loop of `formatBytes`,
written with an explicit fuel argument (the loop runs at most `fuel`
times; `formatBytes` passes the input itself as fuel, which always
suffices, see `fbLevelAux_eq`).  Comparing the running quotient with
1024 through natural floor division is exact: `v / 1024 ^ l ≥ 1024`
holds for the rational quotient if and only if it holds for the floored
one. -/
def fbLevelAux : Nat → Nat → Nat
  | 0, _ => 0
  | fuel + 1, v => if v < 1024 then 0 else fbLevelAux fuel (v / 1024) + 1

/-- Number of unit steps `formatBytes` performs on input `v`. -/
def fbLevel (v : Nat) : Nat := fbLevelAux v v

/-- The `n.toFixed(digits)` call of `formatBytes`, on the exact value
`v / den` (`den` is `1024 ^ level`): half-up rounding computed on
integers.  Only `digits = 0` and `digits = 1` are reachable. -/
def fbToFixed (v den digits : Nat) : String :=
  if digits = 0 then
    toString ((2 * v + den) / (2 * den))
  else
    let m := (20 * v + den) / (2 * den)
    toString (m / 10) ++ "." ++ toString (m % 10)

/-- `formatBytes` (script.js lines 332-339): scale by 1024 while at least
1024, then render with one decimal when the scaled value is below 10 and
a unit step happened, as an integer otherwise, followed by the unit
name (`units[l]` is `undefined` past the last entry, as in JavaScript). -/
def formatBytes (value : Nat) : String :=
  let l := fbLevel value
  let den := 1024 ^ l
  fbToFixed value den (if value < 10 * den ∧ 0 < l then 1 else 0) ++ " " ++
    fbUnits.getD l ("undefined")

/-- A single DOM write performed by the scripts. -/
inductive WriteOp where
  | setText (id : String) (s : String)
  | setClass (id : String) (s : String)
  | setHidden (id : String) (b : Bool)
  | setDisplay (id : String) (s : String)
  | setColor (id : String) (s : String)
deriving DecidableEq, Repr

/-- Element id a write is addressed to. -/
def WriteOp.target : WriteOp → String
  | WriteOp.setText id _ => id
  | WriteOp.setClass id _ => id
  | WriteOp.setHidden id _ => id
  | WriteOp.setDisplay id _ => id
  | WriteOp.setColor id _ => id

/-- Mutable state of one DOM element, as far as the scripts touch it. -/
structure Elem where
  text : String
  className : String
  hidden : Bool
  display : String
  color : String
deriving DecidableEq, Repr

/-- The page: an association list from element id to element state.  An
id absent from the list is an element absent from the page. -/
abbrev Dom := List (String × Elem)

/-- `document.getElementById`. -/
def domGet : Dom → String → Option Elem
  | [], _ => none
  | (k, e) :: rest, id => if k = id then some e else domGet rest id

/-- Update the element with the given id, a no-op when it is absent. -/
def domSet (dom : Dom) (id : String) (f : Elem → Elem) : Dom :=
  dom.map (fun p => if p.1 = id then (p.1, f p.2) else p)

/-- Apply one write: every write in the source is guarded by an
`if (element)` presence check, so an absent target makes it a no-op. -/
def applyOp (dom : Dom) : WriteOp → Dom
  | WriteOp.setText id s => domSet dom id (fun e => { e with text := s })
  | WriteOp.setClass id s => domSet dom id (fun e => { e with className := s })
  | WriteOp.setHidden id b => domSet dom id (fun e => { e with hidden := b })
  | WriteOp.setDisplay id s => domSet dom id (fun e => { e with display := s })
  | WriteOp.setColor id s => domSet dom id (fun e => { e with color := s })

/-- Apply a render trace left to right. -/
def applyOps (dom : Dom) (ops : List WriteOp) : Dom := ops.foldl applyOp dom

/-- `updateElement` (script.js lines 304-309): write `value || whenFalsy`
to the text of the slot, where the falsy replacement is the placeholder. -/
def updateElementOp (id : String) (v : JsVal) : WriteOp :=
  WriteOp.setText id (if v.truthy then v.display else ("--"))

/-- The `utc` sub-object of a status block. -/
structure UtcBlock where
  utcStatus : String
  clockStatus : String
deriving DecidableEq, Repr

/-- The `ins` sub-object of a status block.  In the source this is one
JavaScript object carrying the solution type, the alignment flag and one
boolean per aiding constituent; `Object.entries` iterates all of them
(see `insEntries`). -/
structure InsBlock where
  type : String
  alignment : Bool
  constituents : List (String × Bool)
deriving DecidableEq, Repr

/-- Per-channel enable flag (`status.aiding.gnssN.enabled`). -/
structure GnssAiding where
  enabled : Bool
deriving DecidableEq, Repr

/-- The `aiding` sub-object of a status block. -/
structure AidingBlock where
  gnss1 : GnssAiding
  gnss2 : GnssAiding
deriving DecidableEq, Repr

/-- The `status` block of a unit record. -/
structure StatusBlock where
  utc : UtcBlock
  ins : InsBlock
  aiding : AidingBlock
deriving DecidableEq, Repr

/-- The fused `ekf` estimate of `ins_measurement`.  Components that may be
missing from a partially populated record are `Option`; a standard
deviation vector shorter than three entries models a missing component
(`posStd[i]` is `undefined` in JavaScript). -/
structure EkfBlock where
  latitude : Option ℚ
  longitude : Option ℚ
  altitude : Option ℚ
  posStd : List ℚ
deriving DecidableEq, Repr

/-- The `ins_measurement` block of a unit record. -/
structure InsMeasurement where
  dateTime : String
  ekf : Option EkfBlock
deriving DecidableEq, Repr

/-- The `pvt` record of an enabled GNSS channel. -/
structure Pvt where
  status : String
  latitude : Option ℚ
  longitude : Option ℚ
  height : Option ℚ
  latitudeStd : Option ℚ
  longitudeStd : Option ℚ
  heightStd : Option ℚ
  spoofing : String
  interference : String
  osnma : String
  numSvUsed : Nat
  numSvTracked : Nat
  signals : List (String × Bool)
deriving DecidableEq, Repr

/-- One GNSS channel measurement (`gnss1_measurement` / `gnss2_measurement`). -/
structure GnssMeasurement where
  status : String
  pvt : Option Pvt
deriving DecidableEq, Repr

/-- The `datalogger` block of a unit record. -/
structure DataLogger where
  status : String
  mode : String
  usedSpace : Nat
  totalSpace : Nat
deriving DecidableEq, Repr

/-- One unit record as consumed by `updateINSCard` (the `data.data` value
of the snapshot).  Blocks that updateINSCard dereferences without a guard
are `Option` so that the JavaScript `TypeError` on a missing block can be
modelled. -/
structure UnitData where
  online : Bool
  error_message : Option String
  status : Option StatusBlock
  ins_measurement : Option InsMeasurement
  datalogger : Option DataLogger
  gnss1_measurement : Option GnssMeasurement
  gnss2_measurement : Option GnssMeasurement
deriving DecidableEq, Repr

/-- One snapshot entry: the per-unit wrapper `{ data, timestamp }`. -/
structure TimedData where
  data : UnitData
  timestamp : String
deriving DecidableEq, Repr

/-- The `(100. * usedSpace / totalSpace).toFixed(2)` expression of
`updateDataLogger`; division by zero follows the JavaScript float
results (`NaN` or `Infinity` stringified by `toFixed`). -/
def dlSpacePct (used total : Nat) : String :=
  if total = 0 then (if used = 0 then ("NaN") else ("Infinity"))
  else qToFixed ((100 * (used : ℚ)) / (total : ℚ)) 2

/-- JavaScript substring containment (`String.prototype.includes`). -/
def containsSub (sub s : String) : Bool :=
  decide (List.IsInfix sub.toList s.toList)

namespace INSMonitor

/-- `updateSystemStatus` (script.js lines 311-317). -/
def updateSystemStatusOps (text : String) (isOnline : Bool) : List WriteOp :=
  [WriteOp.setText ("statusText") text,
   WriteOp.setColor ("statusText") (if isOnline then ("#4CAF50") else ("#f44336"))]

/-- `updateUTCStatus` (script.js lines 89-102). -/
def updateUTCStatus (insId : String) (utc : UtcBlock) (insDateTime : String) : List WriteOp :=
  [WriteOp.setText ("utc-valid-" ++ insId) utc.utcStatus,
   WriteOp.setClass ("utc-valid-" ++ insId) ("status-info-value status-info-utc-" ++ utc.utcStatus),
   WriteOp.setText ("utc-clock-" ++ insId) utc.clockStatus,
   WriteOp.setClass ("utc-clock-" ++ insId) ("status-info-value status-info-clock-" ++ utc.clockStatus),
   updateElementOp ("utc-date-" ++ insId) (JsVal.str insDateTime)]

/-- `updateDataLogger` (script.js lines 104-126): a falsy data-logger
block renders the placeholder in each of the three slots; a present one
renders status, mode and the used/total capacity string. -/
def updateDataLogger (insId : String) (dl : Option DataLogger) : List WriteOp :=
  match dl with
  | none =>
    [updateElementOp ("datalogger-status-" ++ insId) (JsVal.str ("--")),
     updateElementOp ("datalogger-mode-" ++ insId) (JsVal.str ("--")),
     updateElementOp ("datalogger-space-" ++ insId) (JsVal.str ("--"))]
  | some d =>
    [WriteOp.setText ("datalogger-status-" ++ insId) d.status,
     WriteOp.setClass ("datalogger-status-" ++ insId)
       ("status-info-value status-info-dlstatus-" ++ d.status),
     WriteOp.setText ("datalogger-mode-" ++ insId) d.mode,
     WriteOp.setClass ("datalogger-mode-" ++ insId)
       ("status-info-value status-info-dlmode-" ++ d.mode),
     updateElementOp ("datalogger-space-" ++ insId)
       (JsVal.str (formatBytes d.usedSpace ++ " / " ++ formatBytes d.totalSpace ++
         " (" ++ dlSpacePct d.usedSpace d.totalSpace ++ " %)"))]

/-- `updateGNSSSignals` (script.js lines 212-221). -/
def updateGNSSSignals (insId : String) (gnssId : Nat) (signals : List (String × Bool)) :
    List WriteOp :=
  if signals.length > 0 then
    signals.map (fun p =>
      WriteOp.setClass ("gnss" ++ toString gnssId ++ "-" ++ p.1 ++ "-" ++ insId)
        (if p.2 then ("freq-available") else ("freq-unavailable")))
  else []

/-- `updateGNSSMeasurements` (script.js lines 128-210).  A missing channel
block returns early; an enabled channel with a missing `pvt` record
throws (`gnssMeasurements.pvt.status` on `undefined`), reported in the
second component together with the ops already emitted. -/
def updateGNSSMeasurements (insId : String) (gnssId : Nat) (g : Option GnssMeasurement) :
    List WriteOp × Option String :=
  match g with
  | none => ([], none)
  | some gm =>
    let gp := "gnss" ++ toString gnssId
    let pre :=
      [WriteOp.setHidden (gp ++ "-section-" ++ insId) (gm.status == "disabled"),
       WriteOp.setText (gp ++ "-status-" ++ insId) gm.status,
       WriteOp.setClass (gp ++ "-status-" ++ insId) ("gnss-status-" ++ gm.status)]
    if gm.status == "enabled" then
      match gm.pvt with
      | none => (pre, some ("TypeError: undefined pvt"))
      | some pvt =>
        (pre ++
          [WriteOp.setClass (gp ++ "-pvt-status-" ++ insId)
             ("solution-type solution-" ++ tierClassName (gnssSolutionTier pvt.status)),
           WriteOp.setText (gp ++ "-pvt-status-" ++ insId) pvt.status,
           updateElementOp (gp ++ "-lat-" ++ insId) (JsVal.str (formatCoordinate pvt.latitude)),
           updateElementOp (gp ++ "-lon-" ++ insId) (JsVal.str (formatCoordinate pvt.longitude)),
           updateElementOp (gp ++ "-alt-" ++ insId) (JsVal.str (formatNumber pvt.height 1 (""))),
           updateElementOp (gp ++ "-lat-std-" ++ insId)
             (JsVal.str ("± " ++ formatNumber pvt.latitudeStd 3 ("m"))),
           updateElementOp (gp ++ "-lon-std-" ++ insId)
             (JsVal.str ("± " ++ formatNumber pvt.longitudeStd 3 ("m"))),
           updateElementOp (gp ++ "-alt-std-" ++ insId)
             (JsVal.str ("± " ++ formatNumber pvt.heightStd 3 ("m"))),
           WriteOp.setText (gp ++ "-spoofing-" ++ insId) ("🛡️ Spoofing: " ++ pvt.spoofing),
           WriteOp.setText (gp ++ "-interference-" ++ insId)
             ("📡 Interference: " ++ pvt.interference),
           WriteOp.setText (gp ++ "-osnma-" ++ insId) ("🔒 OSNMA: " ++ pvt.osnma),
           WriteOp.setText (gp ++ "-num-sv-" ++ insId)
             ("🛰 SV: " ++ toString pvt.numSvUsed ++ " / " ++ toString pvt.numSvTracked)] ++
          updateGNSSSignals insId gnssId pvt.signals, none)
    else (pre, none)

/-- `updateEkfMeasurements` (script.js lines 223-276).  The `ekf?.field`
optional chains are `Option.bind`; `ekf?.posStd[i]` on a short vector is
`undefined`, hence the placeholder. -/
def updateEkfMeasurements (insId : String) (ekf : Option EkfBlock)
    (insSolutionType : String) (insSolutionAligned : Bool) : List WriteOp :=
  [WriteOp.setClass ("ekf-ins-solution-type-" ++ insId)
     ("solution-type solution-" ++ tierClassName (ekfSolutionTier insSolutionType)),
   WriteOp.setText ("ekf-ins-solution-type-" ++ insId) insSolutionType,
   WriteOp.setText ("ekf-ins-solution-aligned-" ++ insId)
     (if insSolutionAligned then ("Aligned") else ("Not Aligned")),
   WriteOp.setClass ("ekf-ins-solution-aligned-" ++ insId)
     ("solution-type " ++ (if insSolutionAligned then ("solution-best") else ("solution-degraded"))),
   updateElementOp ("ekf-lat-" ++ insId)
     (JsVal.str (formatCoordinate (ekf.bind EkfBlock.latitude))),
   updateElementOp ("ekf-lon-" ++ insId)
     (JsVal.str (formatCoordinate (ekf.bind EkfBlock.longitude))),
   updateElementOp ("ekf-alt-" ++ insId)
     (JsVal.str (formatNumber (ekf.bind EkfBlock.altitude) 1 (""))),
   updateElementOp ("ekf-lat-std-" ++ insId)
     (JsVal.str ("± " ++ formatNumber (ekf.bind (fun e => e.posStd.get? 0)) 3 ("m"))),
   updateElementOp ("ekf-lon-std-" ++ insId)
     (JsVal.str ("± " ++ formatNumber (ekf.bind (fun e => e.posStd.get? 1)) 3 ("m"))),
   updateElementOp ("ekf-alt-std-" ++ insId)
     (JsVal.str ("± " ++ formatNumber (ekf.bind (fun e => e.posStd.get? 2)) 3 ("m")))]

/-- `Object.entries(status.ins)`: the solution type and the alignment flag
are ordinary own properties of the `ins` object and are iterated together
with the per-constituent flags; their values enter the glyph rendering
through JavaScript truthiness. -/
def insEntries (ins : InsBlock) : List (String × Bool) :=
  (("type"), ins.type != "") :: (("alignment"), ins.alignment) :: ins.constituents

/-- Ops `updateInsSolution` emits for one entry of `status.ins`: the
used/not-used glyph, then the visibility of the GNSS-1 / GNSS-2 specific
row driven by that channel's enable flag. -/
def insSolutionEntryOps (insId : String) (aiding : AidingBlock) (p : String × Bool) :
    List WriteOp :=
  [WriteOp.setText ("ekf-solution-" ++ p.1 ++ "-" ++ insId)
     (if p.2 then ("✓") else ("✗")),
   WriteOp.setClass ("ekf-solution-" ++ p.1 ++ "-" ++ insId)
     ("ekf-status-icon " ++ (if p.2 then ("ekf-status-ok") else ("ekf-status-ko")))] ++
  (if containsSub ("gnss1") p.1 then
     [WriteOp.setDisplay ("ekf-solution-item-" ++ p.1 ++ "-" ++ insId)
        (if aiding.gnss1.enabled then ("flex") else ("none"))]
   else []) ++
  (if containsSub ("gnss2") p.1 then
     [WriteOp.setDisplay ("ekf-solution-item-" ++ p.1 ++ "-" ++ insId)
        (if aiding.gnss2.enabled then ("flex") else ("none"))]
   else [])

/-- `updateInsSolution` (script.js lines 278-302). -/
def updateInsSolution (insId : String) (status : StatusBlock) : List WriteOp :=
  if (insEntries status.ins).length > 0 then
    ((insEntries status.ins).map (insSolutionEntryOps insId status.aiding)).flatten
  else []

/-- `updateINSCard` (script.js lines 59-87).  The status indicator and the
error slot are always written; an offline record stops there.  For an
online record, `data.status.utc` and `data.ins_measurement.dateTime` are
dereferenced without a guard: a missing block throws, keeping the ops
already emitted (second component records the thrown error). -/
def updateINSCard (insId : String) (data : UnitData) : List WriteOp × Option String :=
  let statusOps :=
    [WriteOp.setClass ("status-" ++ insId)
      ("status-indicator " ++ (if data.online then ("status-online") else ("status-offline")))]
  let errorOps :=
    if jsTruthyStrOpt data.error_message && !data.online then
      [WriteOp.setText ("error-" ++ insId) ("Erreur: " ++ data.error_message.getD ("")),
       WriteOp.setDisplay ("error-" ++ insId) ("block")]
    else
      [WriteOp.setDisplay ("error-" ++ insId) ("none")]
  let pre := statusOps ++ errorOps
  if !data.online then (pre, none)
  else
    match data.status with
    | none => (pre, some ("TypeError: undefined status"))
    | some status =>
      match data.ins_measurement with
      | none => (pre, some ("TypeError: undefined ins measurement"))
      | some meas =>
        let utcOps := updateUTCStatus insId status.utc meas.dateTime
        let dlOps := updateDataLogger insId data.datalogger
        match updateGNSSMeasurements insId 1 data.gnss1_measurement with
        | (g1, some e) => (pre ++ utcOps ++ dlOps ++ g1, some e)
        | (g1, none) =>
          match updateGNSSMeasurements insId 2 data.gnss2_measurement with
          | (g2, some e) => (pre ++ utcOps ++ dlOps ++ g1 ++ g2, some e)
          | (g2, none) =>
            (pre ++ utcOps ++ dlOps ++ g1 ++ g2 ++
              updateEkfMeasurements insId meas.ekf status.ins.type status.ins.alignment ++
              updateInsSolution insId status, none)

/-- The per-unit segment of one `updateDisplay` cycle: the card update
followed by the write of the timestamp slot (script.js lines 48-52). -/
def unitCycleOps (insId : String) (td : TimedData) : List WriteOp × Option String :=
  match updateINSCard insId td.data with
  | (ops, some e) => (ops, some e)
  | (ops, none) =>
    (ops ++ [updateElementOp ("timestamp-" ++ insId)
      (JsVal.str ("Last update : " ++ td.timestamp))], none)

/-- The `forEach` over snapshot entries: a thrown unit aborts the cycle,
keeping the writes already applied. -/
def unitsOps : List (String × TimedData) → List WriteOp × Option String
  | [] => ([], none)
  | (insId, td) :: rest =>
    match unitCycleOps insId td with
    | (ops, some e) => (ops, some e)
    | (ops, none) =>
      let r := unitsOps rest
      (ops ++ r.1, r.2)

/-- `updateDisplay` (script.js lines 47-57): all unit segments, then the
system-wide online summary. -/
def updateDisplay (allData : List (String × TimedData)) : List WriteOp × Option String :=
  match unitsOps allData with
  | (ops, some e) => (ops, some e)
  | (ops, none) =>
    let onlineCount := (allData.filter (fun p => p.2.data.online)).length
    let totalCount := allData.length
    (ops ++ updateSystemStatusOps
      ("Online : " ++ toString onlineCount ++ "/" ++ toString totalCount) (onlineCount > 0), none)

end INSMonitor

/-- Events of the poll-loop state machine of `INSMonitor`
(script.js lines 13-45).  `start` and `stop` are the public methods;
`tick` is one firing of the `setInterval` timer; `respOk` / `respErr`
are the completion of one in-flight `fetchData` request (successful
render, or transport failure caught in the `try` block). -/
inductive MEv where
  | start
  | stop
  | tick
  | respOk
  | respErr
deriving DecidableEq, Repr

/-- Observable poll-loop state: the `isRunning` flag, whether the
`setInterval` timer is armed, the number of in-flight `fetchData`
requests, and counters of issued fetches and applied renders. -/
structure MonState where
  isRunning : Bool
  intervalActive : Bool
  pending : Nat
  fetchesIssued : Nat
  rendersApplied : Nat
deriving DecidableEq, Repr

namespace INSMonitor

/-- `startMonitoring` (script.js lines 13-21): an early return when
already running, otherwise one immediate `fetchData` plus arming the
fixed-interval timer. -/
def startMonitoring (s : MonState) : MonState :=
  if s.isRunning then s
  else { s with isRunning := true, pending := s.pending + 1,
                fetchesIssued := s.fetchesIssued + 1, intervalActive := true }

/-- `stopMonitoring` (script.js lines 23-29): clears the flag and the
interval timer; an in-flight request is not cancelled. -/
def stopMonitoring (s : MonState) : MonState :=
  { s with isRunning := false, intervalActive := false }

/-- One step of the poll loop.  The timer fires whenever it is armed,
regardless of any in-flight request (`setInterval` has no completion
coupling); a response can complete only when a request is in flight. -/
def mstep (s : MonState) : MEv → MonState
  | MEv.start => startMonitoring s
  | MEv.stop => stopMonitoring s
  | MEv.tick =>
    if s.intervalActive then
      { s with pending := s.pending + 1, fetchesIssued := s.fetchesIssued + 1 }
    else s
  | MEv.respOk =>
    if 0 < s.pending then
      { s with pending := s.pending - 1, rendersApplied := s.rendersApplied + 1 }
    else s
  | MEv.respErr =>
    if 0 < s.pending then { s with pending := s.pending - 1 } else s

/-- Run a sequence of events. -/
def mrun (s : MonState) (evs : List MEv) : MonState := evs.foldl mstep s

/-- State of a freshly constructed `INSMonitor` before `init` runs. -/
def minit : MonState :=
  { isRunning := false, intervalActive := false, pending := 0,
    fetchesIssued := 0, rendersApplied := 0 }

end INSMonitor

/-- Own property names of `Object.prototype`.  The guard
`insId in this.trajectories` of the trajectory `updateDisplay` uses the
JavaScript `in` operator, which walks the prototype chain of the plain
object `this.trajectories = {}`: these names pass the guard even for
units that were never configured. -/
def objectProtoKeys : List String :=
  ["constructor", "hasOwnProperty", "isPrototypeOf", "propertyIsEnumerable",
   "toLocaleString", "toString", "valueOf", "__proto__", "__defineGetter__",
   "__defineSetter__", "__lookupGetter__", "__lookupSetter__"]

namespace TrajectoryMonitor

/-- A latitude/longitude pair.  The tracker never computes on
coordinates, it only stores and forwards them. -/
abbrev Pos := ℚ × ℚ

/-- The fixed map reference coordinate used for the initial view and the
initial marker position. -/
def mapCenter : Pos := (48.9100065, 2.1662488)

/-- State of the `TrajectoryMonitor`: the poll flags and counters, the
unit ids configured at `init` (the keys of `trajectories` and
`currentMarkers`), and per unit id the tracked path, the marker position
and the marker visibility (opacity 1 and added to the map). -/
structure State where
  isRunning : Bool
  intervalActive : Bool
  fetchesIssued : Nat
  configured : List String
  path : String → List Pos
  markerPos : String → Pos
  markerVisible : String → Bool

/-- `startMonitoring` of `TrajectoryMonitor` (part_000 lines 72-78):
early return when already running, otherwise one immediate fetch and the
interval timer. -/
def startMonitoring (s : State) : State :=
  if s.isRunning then s
  else { s with isRunning := true, fetchesIssued := s.fetchesIssued + 1,
                intervalActive := true }

/-- `stopMonitoring` of `TrajectoryMonitor` (part_000 lines 80-85). -/
def stopMonitoring (s : State) : State :=
  { s with isRunning := false, intervalActive := false }

/-- `init` (part_000 lines 16-70): for every configured unit id an empty
polyline and a marker at the map centre with opacity 0 (not yet added to
the map), then `startMonitoring`. -/
def init (cfg : List String) : State :=
  startMonitoring
    { isRunning := false, intervalActive := false, fetchesIssued := 0,
      configured := cfg,
      path := fun _ => [],
      markerPos := fun _ => mapCenter,
      markerVisible := fun _ => false }

/-- One iteration of the `forEach` of `updateDisplay` (part_000 lines
104-111).  The guard is `insId in this.trajectories && positions[insId].length > 0`:
an empty list makes the second conjunct false, so nothing runs; for a
non-empty list, a configured id is an own key of `trajectories` (the
polyline, shadowing anything inherited) and its path, marker position
and visibility are updated; an unconfigured id that is an inherited
`Object.prototype` name still passes the `in` guard, but the body then
calls `setLatLngs` on the inherited value, which throws a `TypeError`;
any other id fails the guard and is skipped.  (A configured id named
`__proto__` would not create an own key at `init`; that pathological
assignment is outside the model.) -/
def trajStep (s : State) : String × List Pos → State × Option String
  | (_, []) => (s, none)
  | (insId, x :: xs) =>
    if insId ∈ s.configured then
      ({ s with
         path := fun j => if j = insId then x :: xs else s.path j,
         markerPos := fun j => if j = insId then x else s.markerPos j,
         markerVisible := fun j => if j = insId then true else s.markerVisible j }, none)
    else if insId ∈ objectProtoKeys then
      (s, some ("TypeError: setLatLngs is not a function"))
    else (s, none)

/-- `updateDisplay` of `TrajectoryMonitor` (part_000 lines 102-112): the
`forEach` over the response keys in order; the first thrown `TypeError`
aborts the remaining iterations (the exception propagates to the `catch`
in `fetchData`), keeping the updates applied before the throw. -/
def updateDisplay : State → List (String × List Pos) → State × Option String
  | s, [] => (s, none)
  | s, e :: rest =>
    match trajStep s e with
    | (s', none) => updateDisplay s' rest
    | (s', some err) => (s', some err)

end TrajectoryMonitor

/-- An entry of the positions response that the `forEach` body handles
without throwing: a configured (own-key) unit, or an id that is not an
inherited `Object.prototype` name (guard false, skipped), or an empty
list (the guard short-circuits before the body). -/
abbrev trajEntryBenign (s : TrajectoryMonitor.State)
    (p : String × List TrajectoryMonitor.Pos) : Prop :=
  p.1 ∈ s.configured ∨ p.1 ∉ objectProtoKeys ∨ p.2 = []

lemma domSet_cons (k' : String) (e : Elem) (rest : Dom) (k : String) (f : Elem → Elem) :
    domSet ((k', e) :: rest) k f =
      (if k' = k then (k', f e) else (k', e)) :: domSet rest k f := by
  by_cases h : k' = k <;> simp [domSet, h]

lemma domGet_domSet_ne (dom : Dom) (k id : String) (f : Elem → Elem) (h : k ≠ id) :
    domGet (domSet dom k f) id = domGet dom id := by
  induction dom with
  | nil => rfl
  | cons p rest ih =>
    obtain ⟨k', e⟩ := p
    rw [domSet_cons]
    by_cases hk : k' = k
    · have hne : ¬ k' = id := fun hh => h (hk ▸ hh)
      rw [if_pos hk]
      show (if k' = id then some (f e) else domGet (domSet rest k f) id) = _
      rw [if_neg hne]
      show _ = (if k' = id then some e else domGet rest id)
      rw [if_neg hne]
      exact ih
    · rw [if_neg hk]
      show (if k' = id then some e else domGet (domSet rest k f) id) = _
      by_cases hid : k' = id
      · rw [if_pos hid]
        show _ = (if k' = id then some e else domGet rest id)
        rw [if_pos hid]
      · rw [if_neg hid]
        show _ = (if k' = id then some e else domGet rest id)
        rw [if_neg hid]
        exact ih

lemma domGet_domSet_self (dom : Dom) (id : String) (f : Elem → Elem) :
    domGet (domSet dom id f) id = (domGet dom id).map f := by
  induction dom with
  | nil => rfl
  | cons p rest ih =>
    obtain ⟨k, e⟩ := p
    rw [domSet_cons]
    by_cases hid : k = id
    · rw [if_pos hid]
      show (if k = id then some (f e) else domGet (domSet rest id f) id) = _
      rw [if_pos hid]
      show _ = Option.map f (if k = id then some e else domGet rest id)
      rw [if_pos hid]
      rfl
    · rw [if_neg hid]
      show (if k = id then some e else domGet (domSet rest id f) id) = _
      rw [if_neg hid]
      show _ = Option.map f (if k = id then some e else domGet rest id)
      rw [if_neg hid]
      exact ih

lemma domSet_of_absent (dom : Dom) (id : String) (f : Elem → Elem)
    (h : domGet dom id = none) : domSet dom id f = dom := by
  induction dom with
  | nil => rfl
  | cons p rest ih =>
    obtain ⟨k, e⟩ := p
    by_cases hid : k = id
    · exact absurd h (by
        show ¬ (if k = id then some e else domGet rest id) = none
        rw [if_pos hid]
        exact fun hc => Option.noConfusion hc)
    · have hrest : domGet rest id = none := by
        have hh : (if k = id then some e else domGet rest id) = none := h
        rwa [if_neg hid] at hh
      rw [domSet_cons, if_neg (fun hh : k = id => hid hh), ih hrest]

lemma applyOp_target_ne (dom : Dom) (op : WriteOp) (id : String)
    (h : op.target ≠ id) : domGet (applyOp dom op) id = domGet dom id := by
  cases op <;> simp only [applyOp] <;> exact domGet_domSet_ne dom _ id _ h

lemma applyOps_target_ne (ops : List WriteOp) (dom : Dom) (id : String)
    (h : ∀ op ∈ ops, op.target ≠ id) :
    domGet (applyOps dom ops) id = domGet dom id := by
  induction ops generalizing dom with
  | nil => rfl
  | cons op rest ih =>
    have hstep : applyOps dom (op :: rest) = applyOps (applyOp dom op) rest := rfl
    rw [hstep, ih _ (fun o ho => h o (List.mem_cons_of_mem _ ho))]
    exact applyOp_target_ne _ _ _ (h op (List.mem_cons_self _ _))

/-- C8: every display-slot write routed through `updateElement id value`
sets the text of an existing slot to the value when it is truthy and to
the placeholder otherwise — in particular the number 0, the empty
string, `null` and `undefined` all render as the placeholder — and is a
no-op raising no error when the slot is absent from the page. -/
theorem C8_updateElement (dom : Dom) (id : String) (v : JsVal) :
    (domGet dom id = none → applyOp dom (updateElementOp id v) = dom) ∧
    (∀ e : Elem, domGet dom id = some e →
      domGet (applyOp dom (updateElementOp id v)) id =
        some { e with text := if v.truthy then v.display else ("--") }) ∧
    updateElementOp id (JsVal.num 0) = WriteOp.setText id ("--") ∧
    updateElementOp id (JsVal.str ("")) = WriteOp.setText id ("--") ∧
    updateElementOp id JsVal.null = WriteOp.setText id ("--") ∧
    updateElementOp id JsVal.undef = WriteOp.setText id ("--") := by
  refine ⟨?_, ?_, by simp [updateElementOp, JsVal.truthy], rfl, rfl, rfl⟩
  · intro h
    simp [updateElementOp, applyOp, domSet_of_absent _ _ _ h]
  · intro e he
    simp [updateElementOp, applyOp, domGet_domSet_self, he]

/-- Witness for C8 at a concrete page: a write to an existing slot and a
write to an absent slot. -/
theorem C8_updateElement_witness :
    (domGet ([(("slot-A"), (⟨"", "", false, "", ""⟩ : Elem))]) ("slot-A") =
      some (⟨"", "", false, "", ""⟩ : Elem)) ∧
    (domGet ([(("slot-A"), (⟨"", "", false, "", ""⟩ : Elem))]) ("slot-B") = none) ∧
    applyOp ([(("slot-A"), (⟨"", "", false, "", ""⟩ : Elem))])
        (updateElementOp ("slot-B") (JsVal.str ("x"))) =
      [(("slot-A"), (⟨"", "", false, "", ""⟩ : Elem))] :=
  ⟨by decide, by decide,
   (C8_updateElement ([(("slot-A"), (⟨"", "", false, "", ""⟩ : Elem))]) ("slot-B")
      (JsVal.str ("x"))).1 (by decide)⟩

/-- C3: the solution classifier is total, deterministic and reproduces
the fixed GNSS and EKF mapping tables exactly; every unmapped input
string yields the `unknown` tier. -/
theorem C3_classifier :
    (gnssSolutionTier ("error") = QualityTier.error ∧
     gnssSolutionTier ("exportRestrictions") = QualityTier.error ∧
     gnssSolutionTier ("noSolution") = QualityTier.degraded ∧
     gnssSolutionTier ("static") = QualityTier.degraded ∧
     gnssSolutionTier ("single") = QualityTier.good ∧
     gnssSolutionTier ("differential") = QualityTier.good ∧
     gnssSolutionTier ("rtkFloat") = QualityTier.good ∧
     gnssSolutionTier ("pppFloat") = QualityTier.good ∧
     gnssSolutionTier ("sbas") = QualityTier.best ∧
     gnssSolutionTier ("rtkFixed") = QualityTier.best ∧
     gnssSolutionTier ("pppFixed") = QualityTier.best) ∧
    (ekfSolutionTier ("invalid") = QualityTier.error ∧
     ekfSolutionTier ("vg") = QualityTier.degraded ∧
     ekfSolutionTier ("inertial") = QualityTier.degraded ∧
     ekfSolutionTier ("velConst") = QualityTier.degraded ∧
     ekfSolutionTier ("odometer") = QualityTier.degraded ∧
     ekfSolutionTier ("airData") = QualityTier.degraded ∧
     ekfSolutionTier ("dvl") = QualityTier.degraded ∧
     ekfSolutionTier ("gnssVel") = QualityTier.degraded ∧
     ekfSolutionTier ("gnssUnknown") = QualityTier.degraded ∧
     ekfSolutionTier ("singlePoint") = QualityTier.good ∧
     ekfSolutionTier ("dgps") = QualityTier.good ∧
     ekfSolutionTier ("sbas") = QualityTier.good ∧
     ekfSolutionTier ("rtkFloat") = QualityTier.good ∧
     ekfSolutionTier ("pppFloat") = QualityTier.good ∧
     ekfSolutionTier ("rtkFixed") = QualityTier.best ∧
     ekfSolutionTier ("pppFixed") = QualityTier.best) ∧
    (∀ s : String,
      s ∉ (["error", "exportRestrictions", "noSolution", "static", "single",
            "differential", "rtkFloat", "pppFloat", "sbas", "rtkFixed",
            "pppFixed"] : List String) →
      gnssSolutionTier s = QualityTier.unknown) ∧
    (∀ s : String,
      s ∉ (["invalid", "vg", "inertial", "velConst", "odometer", "airData", "dvl",
            "gnssVel", "gnssUnknown", "singlePoint", "dgps", "sbas", "rtkFloat",
            "pppFloat", "rtkFixed", "pppFixed"] : List String) →
      ekfSolutionTier s = QualityTier.unknown) := by
  refine ⟨by decide, by decide, ?_, ?_⟩
  · intro s hs
    simp only [List.mem_cons, List.not_mem_nil, or_false, not_or] at hs
    obtain ⟨h1, h2, h3, h4, h5, h6, h7, h8, h9, h10, h11⟩ := hs
    simp [gnssSolutionTier, h1, h2, h3, h4, h5, h6, h7, h8, h9, h10, h11]
  · intro s hs
    simp only [List.mem_cons, List.not_mem_nil, or_false, not_or] at hs
    obtain ⟨h1, h2, h3, h4, h5, h6, h7, h8, h9, h10, h11, h12, h13, h14, h15, h16⟩ := hs
    simp [ekfSolutionTier, h1, h2, h3, h4, h5, h6, h7, h8, h9, h10, h11, h12, h13,
      h14, h15, h16]

/-- Witness for C3: an input outside both tables classifies as unknown. -/
theorem C3_classifier_witness :
    gnssSolutionTier ("wigwam") = QualityTier.unknown ∧
    ekfSolutionTier ("wigwam") = QualityTier.unknown :=
  ⟨C3_classifier.2.2.1 ("wigwam") (by decide),
   C3_classifier.2.2.2 ("wigwam") (by decide)⟩

/-- C10: `startMonitoring` is idempotent on a running monitor — the guard
`if (this.isRunning) return` makes a second call change no state, arm no
second timer and issue no additional fetch, for the telemetry monitor
and for the trajectory monitor alike. -/
theorem C10_start_idempotent (s : MonState) (t : TrajectoryMonitor.State)
    (hs : s.isRunning = true) (ht : t.isRunning = true) :
    INSMonitor.startMonitoring s = s ∧ TrajectoryMonitor.startMonitoring t = t := by
  constructor
  · simp [INSMonitor.startMonitoring, hs]
  · simp [TrajectoryMonitor.startMonitoring, ht]

/-- Witness for C10: a running telemetry monitor state and the state of
the trajectory monitor right after `init` (which is running). -/
theorem C10_start_idempotent_witness :
    ((⟨true, true, 1, 1, 0⟩ : MonState).isRunning = true) ∧
    ((TrajectoryMonitor.init (["A"])).isRunning = true) ∧
    INSMonitor.startMonitoring (⟨true, true, 1, 1, 0⟩ : MonState) =
      (⟨true, true, 1, 1, 0⟩ : MonState) ∧
    TrajectoryMonitor.startMonitoring (TrajectoryMonitor.init (["A"])) =
      TrajectoryMonitor.init (["A"]) := by
  refine ⟨rfl, rfl, ?_⟩
  exact C10_start_idempotent (⟨true, true, 1, 1, 0⟩ : MonState)
    (TrajectoryMonitor.init (["A"])) rfl rfl

/-- C1 counterexample: the poll loop is driven by `setInterval`, a fixed
wall-clock timer with no completion coupling, so after a start the first
interval tick during a slow in-flight request puts a second poll in
flight — the claimed at-most-one-outstanding invariant fails. -/
theorem C1_counterexample :
    (INSMonitor.mrun INSMonitor.minit [MEv.start, MEv.tick]).pending = 2 ∧
    ¬ (INSMonitor.mrun INSMonitor.minit [MEv.start, MEv.tick]).pending ≤ 1 := by
  exact ⟨rfl, by decide⟩

lemma mstep_stopped (s : MonState) (ev : MEv) (hev : ev ≠ MEv.start)
    (hi : s.intervalActive = false) :
    (INSMonitor.mstep s ev).fetchesIssued = s.fetchesIssued ∧
    (INSMonitor.mstep s ev).pending + (INSMonitor.mstep s ev).rendersApplied ≤
      s.pending + s.rendersApplied ∧
    (INSMonitor.mstep s ev).intervalActive = false := by
  cases ev with
  | start => exact absurd rfl hev
  | stop => exact ⟨rfl, le_refl _, rfl⟩
  | tick =>
    have hstep : INSMonitor.mstep s MEv.tick = s := by
      simp [INSMonitor.mstep, hi]
    rw [hstep]
    exact ⟨rfl, le_refl _, hi⟩
  | respOk =>
    by_cases hp : 0 < s.pending
    · have hstep : INSMonitor.mstep s MEv.respOk =
          { s with pending := s.pending - 1, rendersApplied := s.rendersApplied + 1 } := by
        simp [INSMonitor.mstep, hp]
      rw [hstep]
      refine ⟨rfl, ?_, hi⟩
      show s.pending - 1 + (s.rendersApplied + 1) ≤ s.pending + s.rendersApplied
      omega
    · have hstep : INSMonitor.mstep s MEv.respOk = s := by
        simp [INSMonitor.mstep, hp]
      rw [hstep]
      exact ⟨rfl, le_refl _, hi⟩
  | respErr =>
    by_cases hp : 0 < s.pending
    · have hstep : INSMonitor.mstep s MEv.respErr =
          { s with pending := s.pending - 1 } := by
        simp [INSMonitor.mstep, hp]
      rw [hstep]
      refine ⟨rfl, ?_, hi⟩
      show s.pending - 1 + s.rendersApplied ≤ s.pending + s.rendersApplied
      omega
    · have hstep : INSMonitor.mstep s MEv.respErr = s := by
        simp [INSMonitor.mstep, hp]
      rw [hstep]
      exact ⟨rfl, le_refl _, hi⟩

lemma mrun_stopped_inv (evs : List MEv) (s : MonState)
    (hs : MEv.start ∉ evs) (hi : s.intervalActive = false) :
    (INSMonitor.mrun s evs).fetchesIssued = s.fetchesIssued ∧
    (INSMonitor.mrun s evs).pending + (INSMonitor.mrun s evs).rendersApplied ≤
      s.pending + s.rendersApplied ∧
    (INSMonitor.mrun s evs).intervalActive = false := by
  induction evs generalizing s with
  | nil => exact ⟨rfl, le_refl _, hi⟩
  | cons ev rest ih =>
    have hev : ev ≠ MEv.start := fun hh => hs (hh ▸ List.mem_cons_self _ _)
    have hrest : MEv.start ∉ rest := fun hh => hs (List.mem_cons_of_mem _ hh)
    obtain ⟨f1, p1, i1⟩ := mstep_stopped s ev hev hi
    obtain ⟨f2, p2, i2⟩ := ih (INSMonitor.mstep s ev) hrest i1
    have hrun : INSMonitor.mrun s (ev :: rest) =
        INSMonitor.mrun (INSMonitor.mstep s ev) rest := rfl
    rw [hrun]
    exact ⟨by omega, by omega, i2⟩

/-- The poll-loop state right after a start immediately followed by a
stop: one in-flight fetch, timer cleared. -/
def mStopped1 : MonState :=
  { isRunning := false, intervalActive := false, pending := 1,
    fetchesIssued := 1, rendersApplied := 0 }

/-- C1 amended: cycles are scheduled by a fixed-interval wall-clock timer
(`setInterval`) that fires regardless of in-flight requests, so several
polls can be outstanding simultaneously (see the counterexample).  What
does hold is the stop-right-after-start property the claim states: a
stop issued immediately after a start clears the timer, leaving exactly
the one in-flight fetch, from which at most one render is applied, and
no further cycle is ever issued. -/
theorem C1_amended_single_flight (evs : List MEv) (h : MEv.start ∉ evs) :
    (INSMonitor.mrun INSMonitor.minit ([MEv.start, MEv.stop] ++ evs)).fetchesIssued = 1 ∧
    (INSMonitor.mrun INSMonitor.minit ([MEv.start, MEv.stop] ++ evs)).rendersApplied ≤ 1 ∧
    (INSMonitor.mrun INSMonitor.minit ([MEv.start, MEv.stop] ++ evs)).pending +
      (INSMonitor.mrun INSMonitor.minit ([MEv.start, MEv.stop] ++ evs)).rendersApplied ≤ 1 ∧
    (INSMonitor.mrun INSMonitor.minit ([MEv.start, MEv.stop] ++ evs)).intervalActive = false := by
  have hsplit : INSMonitor.mrun INSMonitor.minit ([MEv.start, MEv.stop] ++ evs) =
      INSMonitor.mrun (INSMonitor.mrun INSMonitor.minit [MEv.start, MEv.stop]) evs := by
    simp [INSMonitor.mrun, List.foldl_append]
  have hbase : INSMonitor.mrun INSMonitor.minit [MEv.start, MEv.stop] = mStopped1 := rfl
  rw [hsplit, hbase]
  obtain ⟨f, p, i⟩ := mrun_stopped_inv evs mStopped1 h rfl
  have e1 : mStopped1.pending = 1 := rfl
  have e2 : mStopped1.rendersApplied = 0 := rfl
  have e3 : mStopped1.fetchesIssued = 1 := rfl
  rw [e1, e2] at p
  rw [e3] at f
  exact ⟨f, by omega, by omega, i⟩

/-- Witness for C1 amended: the slow response completes after the stop;
exactly one render was applied and no further fetch was issued. -/
theorem C1_amended_single_flight_witness :
    MEv.start ∉ [MEv.respOk] ∧
    ((INSMonitor.mrun INSMonitor.minit ([MEv.start, MEv.stop] ++ [MEv.respOk])).fetchesIssued = 1 ∧
     (INSMonitor.mrun INSMonitor.minit ([MEv.start, MEv.stop] ++ [MEv.respOk])).rendersApplied ≤ 1 ∧
     (INSMonitor.mrun INSMonitor.minit ([MEv.start, MEv.stop] ++ [MEv.respOk])).pending +
       (INSMonitor.mrun INSMonitor.minit ([MEv.start, MEv.stop] ++ [MEv.respOk])).rendersApplied ≤ 1 ∧
     (INSMonitor.mrun INSMonitor.minit
       ([MEv.start, MEv.stop] ++ [MEv.respOk])).intervalActive = false) :=
  ⟨by decide, C1_amended_single_flight [MEv.respOk] (by decide)⟩

lemma lt_pow_1024 (n : Nat) : n < 1024 ^ n := by
  induction n with
  | zero => decide
  | succ k ih =>
    have h1 : 1 ≤ 1024 ^ k := Nat.one_le_pow _ _ (by omega)
    have h2 : 1024 ^ (k + 1) = 1024 ^ k * 1024 := pow_succ _ _
    omega

lemma fbLevelAux_eq : ∀ (l fuel v : Nat), l ≤ fuel → 1024 ^ l ≤ v → v < 1024 ^ (l + 1) →
    fbLevelAux fuel v = l := by
  intro l
  induction l with
  | zero =>
    intro fuel v _ _ h2
    have hv : v < 1024 := by simpa using h2
    cases fuel with
    | zero => rfl
    | succ f => simp [fbLevelAux, hv]
  | succ k ih =>
    intro fuel v hf h1 h2
    cases fuel with
    | zero => omega
    | succ f =>
      have hge : 1024 ≤ v := by
        have hp : (1024 : Nat) ^ 1 ≤ 1024 ^ (k + 1) :=
          Nat.pow_le_pow_right (by omega) (by omega)
        have h11 : (1024 : Nat) ^ 1 = 1024 := pow_one _
        omega
      have hnlt : ¬ v < 1024 := by omega
      have hd1 : 1024 ^ k ≤ v / 1024 := by
        rw [Nat.le_div_iff_mul_le (by omega : 0 < 1024)]
        have hp : 1024 ^ k * 1024 = 1024 ^ (k + 1) := (pow_succ _ _).symm
        omega
      have hd2 : v / 1024 < 1024 ^ (k + 1) := by
        rw [Nat.div_lt_iff_lt_mul (by omega : 0 < 1024)]
        have hp : 1024 ^ (k + 1) * 1024 = 1024 ^ (k + 1 + 1) := (pow_succ _ _).symm
        omega
      simp only [fbLevelAux, hnlt, if_false]
      rw [ih f (v / 1024) (by omega) hd1 hd2]

lemma fbLevel_eq (v l : Nat) (h1 : 1024 ^ l ≤ v) (h2 : v < 1024 ^ (l + 1)) :
    fbLevel v = l :=
  fbLevelAux_eq l v v (le_of_lt (lt_of_lt_of_le (lt_pow_1024 l) h1)) h1 h2

/-- C6: `formatBytes 0` renders the zero-byte string; each factor-of-1024
boundary steps to the next unit name; and the precision rule is one
decimal place when the scaled value is below 10 above the byte unit,
integer rendering otherwise.  The quantified part characterises the
`while` loop: for `1024 ^ l ≤ v < 1024 ^ (l + 1)` the value is rendered
at unit step `l` with exactly the precision the rule selects. -/
theorem C6_formatBytes :
    formatBytes 0 = "0 bytes" ∧
    formatBytes 1023 = "1023 bytes" ∧
    formatBytes 1024 = "1.0 kb" ∧
    formatBytes 1048576 = "1.0 Mb" ∧
    formatBytes 10239 = "10.0 kb" ∧
    formatBytes 10240 = "10 kb" ∧
    (∀ v l : Nat, 1024 ^ l ≤ v → v < 1024 ^ (l + 1) →
      formatBytes v =
        fbToFixed v (1024 ^ l) (if v < 10 * 1024 ^ l ∧ 0 < l then 1 else 0) ++ " " ++
          fbUnits.getD l ("undefined")) := by
  refine ⟨rfl, rfl, rfl, rfl, rfl, rfl, ?_⟩
  intro v l h1 h2
  simp only [formatBytes, fbLevel_eq v l h1 h2]

/-- Witness for C6: 2048 bytes fall in the kilobyte step with one decimal. -/
theorem C6_formatBytes_witness :
    (1024 : Nat) ^ 1 ≤ 2048 ∧ 2048 < 1024 ^ (1 + 1) ∧
    formatBytes 2048 =
      fbToFixed 2048 (1024 ^ 1) (if 2048 < 10 * 1024 ^ 1 ∧ 0 < 1 then 1 else 0) ++ " " ++
        fbUnits.getD 1 ("undefined") :=
  ⟨by decide, by decide, C6_formatBytes.2.2.2.2.2.2 2048 1 (by decide) (by decide)⟩

lemma trajStep_configured (s : TrajectoryMonitor.State)
    (e : String × List TrajectoryMonitor.Pos) :
    (TrajectoryMonitor.trajStep s e).1.configured = s.configured := by
  obtain ⟨k, l⟩ := e
  cases l with
  | nil => rfl
  | cons x xs =>
    by_cases hc : k ∈ s.configured
    · simp [TrajectoryMonitor.trajStep, hc]
    · by_cases hp : k ∈ objectProtoKeys
      · simp [TrajectoryMonitor.trajStep, hc, hp]
      · simp [TrajectoryMonitor.trajStep, hc, hp]

lemma trajStep_frame (s : TrajectoryMonitor.State)
    (e : String × List TrajectoryMonitor.Pos) (id : String) (h : e.1 ≠ id) :
    (TrajectoryMonitor.trajStep s e).1.path id = s.path id ∧
    (TrajectoryMonitor.trajStep s e).1.markerPos id = s.markerPos id ∧
    (TrajectoryMonitor.trajStep s e).1.markerVisible id = s.markerVisible id := by
  obtain ⟨k, l⟩ := e
  cases l with
  | nil => exact ⟨rfl, rfl, rfl⟩
  | cons x xs =>
    by_cases hc : k ∈ s.configured
    · have hid : ¬ id = k := fun hh => h hh.symm
      simp [TrajectoryMonitor.trajStep, hc, hid]
    · by_cases hp : k ∈ objectProtoKeys
      · simp [TrajectoryMonitor.trajStep, hc, hp]
      · simp [TrajectoryMonitor.trajStep, hc, hp]

lemma trajStep_unconfigured (s : TrajectoryMonitor.State)
    (e : String × List TrajectoryMonitor.Pos) (id : String) (h : id ∉ s.configured) :
    (TrajectoryMonitor.trajStep s e).1.path id = s.path id ∧
    (TrajectoryMonitor.trajStep s e).1.markerPos id = s.markerPos id ∧
    (TrajectoryMonitor.trajStep s e).1.markerVisible id = s.markerVisible id := by
  obtain ⟨k, l⟩ := e
  cases l with
  | nil => exact ⟨rfl, rfl, rfl⟩
  | cons x xs =>
    by_cases hc : k ∈ s.configured
    · have hid : ¬ id = k := fun hh => h (hh ▸ hc)
      simp [TrajectoryMonitor.trajStep, hc, hid]
    · by_cases hp : k ∈ objectProtoKeys
      · simp [TrajectoryMonitor.trajStep, hc, hp]
      · simp [TrajectoryMonitor.trajStep, hc, hp]

lemma trajStep_visible_mono (s : TrajectoryMonitor.State)
    (e : String × List TrajectoryMonitor.Pos) (id : String)
    (h : s.markerVisible id = true) :
    (TrajectoryMonitor.trajStep s e).1.markerVisible id = true := by
  obtain ⟨k, l⟩ := e
  cases l with
  | nil => exact h
  | cons x xs =>
    by_cases hc : k ∈ s.configured
    · by_cases hid : id = k
      · simp [TrajectoryMonitor.trajStep, hc, hid]
      · simp [TrajectoryMonitor.trajStep, hc, hid, h]
    · by_cases hp : k ∈ objectProtoKeys
      · simpa [TrajectoryMonitor.trajStep, hc, hp] using h
      · simpa [TrajectoryMonitor.trajStep, hc, hp] using h

lemma trajStep_hit (s : TrajectoryMonitor.State) (k : String)
    (x : TrajectoryMonitor.Pos) (xs : List TrajectoryMonitor.Pos)
    (hc : k ∈ s.configured) :
    (TrajectoryMonitor.trajStep s (k, x :: xs)).1.path k = x :: xs ∧
    (TrajectoryMonitor.trajStep s (k, x :: xs)).1.markerPos k = x ∧
    (TrajectoryMonitor.trajStep s (k, x :: xs)).1.markerVisible k = true ∧
    (TrajectoryMonitor.trajStep s (k, x :: xs)).2 = none := by
  simp [TrajectoryMonitor.trajStep, hc]

lemma trajStep_benign (s : TrajectoryMonitor.State)
    (e : String × List TrajectoryMonitor.Pos) (h : trajEntryBenign s e) :
    (TrajectoryMonitor.trajStep s e).2 = none := by
  obtain ⟨k, l⟩ := e
  cases l with
  | nil => rfl
  | cons x xs =>
    rcases h with h | h | h
    · simp [TrajectoryMonitor.trajStep, h]
    · by_cases hc : k ∈ s.configured
      · simp [TrajectoryMonitor.trajStep, hc]
      · simp [TrajectoryMonitor.trajStep, hc, h]
    · exact absurd h (List.cons_ne_nil x xs)

lemma trajStep_not_benign (s : TrajectoryMonitor.State)
    (e : String × List TrajectoryMonitor.Pos) (h : ¬ trajEntryBenign s e) :
    TrajectoryMonitor.trajStep s e =
      (s, some ("TypeError: setLatLngs is not a function")) := by
  obtain ⟨k, l⟩ := e
  have h1 : k ∉ s.configured := fun hh => h (Or.inl hh)
  have h2 : k ∈ objectProtoKeys := by
    by_contra hh
    exact h (Or.inr (Or.inl hh))
  have h3 : l ≠ [] := fun hh => h (Or.inr (Or.inr hh))
  cases l with
  | nil => exact absurd rfl h3
  | cons x xs => simp [TrajectoryMonitor.trajStep, h1, h2]

lemma trajEntryBenign_congr (s s' : TrajectoryMonitor.State)
    (h : s'.configured = s.configured) (p : String × List TrajectoryMonitor.Pos) :
    trajEntryBenign s' p ↔ trajEntryBenign s p := by
  unfold trajEntryBenign
  rw [h]

lemma updateDisplay_configured :
    ∀ (ps : List (String × List TrajectoryMonitor.Pos)) (s : TrajectoryMonitor.State),
      (TrajectoryMonitor.updateDisplay s ps).1.configured = s.configured := by
  intro ps
  induction ps with
  | nil => intro s; rfl
  | cons e rest ih =>
    intro s
    rcases hst : TrajectoryMonitor.trajStep s e with ⟨s', err⟩
    have hcfg : s'.configured = s.configured := by
      have hh := trajStep_configured s e
      rw [hst] at hh
      exact hh
    cases err with
    | none =>
      have hu : TrajectoryMonitor.updateDisplay s (e :: rest) =
          TrajectoryMonitor.updateDisplay s' rest := by
        simp [TrajectoryMonitor.updateDisplay, hst]
      rw [hu, ih s', hcfg]
    | some msg =>
      have hu : TrajectoryMonitor.updateDisplay s (e :: rest) = (s', some msg) := by
        simp [TrajectoryMonitor.updateDisplay, hst]
      rw [hu]
      exact hcfg

lemma updateDisplay_frame (id : String) :
    ∀ (ps : List (String × List TrajectoryMonitor.Pos)) (s : TrajectoryMonitor.State),
      id ∉ ps.map Prod.fst →
      (TrajectoryMonitor.updateDisplay s ps).1.path id = s.path id ∧
      (TrajectoryMonitor.updateDisplay s ps).1.markerPos id = s.markerPos id ∧
      (TrajectoryMonitor.updateDisplay s ps).1.markerVisible id = s.markerVisible id := by
  intro ps
  induction ps with
  | nil => intro s _; exact ⟨rfl, rfl, rfl⟩
  | cons e rest ih =>
    intro s h
    have hk : e.1 ≠ id := by
      intro hh
      exact h (by simp [hh])
    have hrest : id ∉ rest.map Prod.fst := fun hh => h (by simp [hh])
    obtain ⟨p1, p2, p3⟩ := trajStep_frame s e id hk
    rcases hst : TrajectoryMonitor.trajStep s e with ⟨s', err⟩
    rw [hst] at p1 p2 p3
    cases err with
    | none =>
      have hu : TrajectoryMonitor.updateDisplay s (e :: rest) =
          TrajectoryMonitor.updateDisplay s' rest := by
        simp [TrajectoryMonitor.updateDisplay, hst]
      rw [hu]
      obtain ⟨q1, q2, q3⟩ := ih s' hrest
      exact ⟨q1.trans p1, q2.trans p2, q3.trans p3⟩
    | some msg =>
      have hu : TrajectoryMonitor.updateDisplay s (e :: rest) = (s', some msg) := by
        simp [TrajectoryMonitor.updateDisplay, hst]
      rw [hu]
      exact ⟨p1, p2, p3⟩

lemma updateDisplay_unconfigured (id : String) :
    ∀ (ps : List (String × List TrajectoryMonitor.Pos)) (s : TrajectoryMonitor.State),
      id ∉ s.configured →
      (TrajectoryMonitor.updateDisplay s ps).1.path id = s.path id ∧
      (TrajectoryMonitor.updateDisplay s ps).1.markerPos id = s.markerPos id ∧
      (TrajectoryMonitor.updateDisplay s ps).1.markerVisible id = s.markerVisible id := by
  intro ps
  induction ps with
  | nil => intro s _; exact ⟨rfl, rfl, rfl⟩
  | cons e rest ih =>
    intro s h
    obtain ⟨p1, p2, p3⟩ := trajStep_unconfigured s e id h
    rcases hst : TrajectoryMonitor.trajStep s e with ⟨s', err⟩
    have hcfg : s'.configured = s.configured := by
      have hh := trajStep_configured s e
      rw [hst] at hh
      exact hh
    rw [hst] at p1 p2 p3
    cases err with
    | none =>
      have hu : TrajectoryMonitor.updateDisplay s (e :: rest) =
          TrajectoryMonitor.updateDisplay s' rest := by
        simp [TrajectoryMonitor.updateDisplay, hst]
      rw [hu]
      have h' : id ∉ s'.configured := by rw [hcfg]; exact h
      obtain ⟨q1, q2, q3⟩ := ih s' h'
      exact ⟨q1.trans p1, q2.trans p2, q3.trans p3⟩
    | some msg =>
      have hu : TrajectoryMonitor.updateDisplay s (e :: rest) = (s', some msg) := by
        simp [TrajectoryMonitor.updateDisplay, hst]
      rw [hu]
      exact ⟨p1, p2, p3⟩

lemma updateDisplay_visible_mono (id : String) :
    ∀ (ps : List (String × List TrajectoryMonitor.Pos)) (s : TrajectoryMonitor.State),
      s.markerVisible id = true →
      (TrajectoryMonitor.updateDisplay s ps).1.markerVisible id = true := by
  intro ps
  induction ps with
  | nil => intro s h; exact h
  | cons e rest ih =>
    intro s h
    have hv := trajStep_visible_mono s e id h
    rcases hst : TrajectoryMonitor.trajStep s e with ⟨s', err⟩
    rw [hst] at hv
    cases err with
    | none =>
      have hu : TrajectoryMonitor.updateDisplay s (e :: rest) =
          TrajectoryMonitor.updateDisplay s' rest := by
        simp [TrajectoryMonitor.updateDisplay, hst]
      rw [hu]
      exact ih s' hv
    | some msg =>
      have hu : TrajectoryMonitor.updateDisplay s (e :: rest) = (s', some msg) := by
        simp [TrajectoryMonitor.updateDisplay, hst]
      rw [hu]
      exact hv

lemma updateDisplay_good :
    ∀ (ps : List (String × List TrajectoryMonitor.Pos)) (s : TrajectoryMonitor.State),
      (∀ p ∈ ps, trajEntryBenign s p) →
      (TrajectoryMonitor.updateDisplay s ps).2 = none := by
  intro ps
  induction ps with
  | nil => intro s _; rfl
  | cons e rest ih =>
    intro s hg
    have hb : trajEntryBenign s e := hg e (List.mem_cons_self _ _)
    rcases hst : TrajectoryMonitor.trajStep s e with ⟨s', err⟩
    have herr : err = none := by
      have hh := trajStep_benign s e hb
      rw [hst] at hh
      exact hh
    subst herr
    have hcfg : s'.configured = s.configured := by
      have hh := trajStep_configured s e
      rw [hst] at hh
      exact hh
    have hu : TrajectoryMonitor.updateDisplay s (e :: rest) =
        TrajectoryMonitor.updateDisplay s' rest := by
      simp [TrajectoryMonitor.updateDisplay, hst]
    rw [hu]
    refine ih s' (fun p hp => ?_)
    exact (trajEntryBenign_congr s s' hcfg p).mpr (hg p (List.mem_cons_of_mem _ hp))

lemma updateDisplay_bad :
    ∀ (ps : List (String × List TrajectoryMonitor.Pos)) (s : TrajectoryMonitor.State),
      (∃ p ∈ ps, ¬ trajEntryBenign s p) →
      ((TrajectoryMonitor.updateDisplay s ps).2).isSome = true := by
  intro ps
  induction ps with
  | nil =>
    intro s h
    obtain ⟨p, hp, _⟩ := h
    exact absurd hp (List.not_mem_nil _)
  | cons e rest ih =>
    intro s h
    by_cases hb : trajEntryBenign s e
    · rcases hst : TrajectoryMonitor.trajStep s e with ⟨s', err⟩
      have herr : err = none := by
        have hh := trajStep_benign s e hb
        rw [hst] at hh
        exact hh
      subst herr
      have hcfg : s'.configured = s.configured := by
        have hh := trajStep_configured s e
        rw [hst] at hh
        exact hh
      have hu : TrajectoryMonitor.updateDisplay s (e :: rest) =
          TrajectoryMonitor.updateDisplay s' rest := by
        simp [TrajectoryMonitor.updateDisplay, hst]
      rw [hu]
      refine ih s' ?_
      obtain ⟨p, hp, hbad⟩ := h
      rcases List.mem_cons.mp hp with heq | hp'
      · exact absurd hb (heq ▸ hbad)
      · exact ⟨p, hp', fun hben => hbad ((trajEntryBenign_congr s s' hcfg p).mp hben)⟩
    · have hu : TrajectoryMonitor.updateDisplay s (e :: rest) =
          (s, some ("TypeError: setLatLngs is not a function")) := by
        simp [TrajectoryMonitor.updateDisplay, trajStep_not_benign s e hb]
      rw [hu]
      rfl

lemma updateDisplay_hit (id : String) (x : TrajectoryMonitor.Pos)
    (xs : List TrajectoryMonitor.Pos) :
    ∀ (ps : List (String × List TrajectoryMonitor.Pos)) (s : TrajectoryMonitor.State),
      (ps.map Prod.fst).Nodup → id ∈ s.configured →
      (∀ p ∈ ps, trajEntryBenign s p) → (id, x :: xs) ∈ ps →
      (TrajectoryMonitor.updateDisplay s ps).1.path id = x :: xs ∧
      (TrajectoryMonitor.updateDisplay s ps).1.markerPos id = x ∧
      (TrajectoryMonitor.updateDisplay s ps).1.markerVisible id = true := by
  intro ps
  induction ps with
  | nil => intro s _ _ _ hm; exact absurd hm (List.not_mem_nil _)
  | cons e rest ih =>
    intro s hnd hc hg hm
    obtain ⟨k, l⟩ := e
    have hkn : k ∉ rest.map Prod.fst := by
      have hh : (k :: rest.map Prod.fst).Nodup := by simpa using hnd
      exact (List.nodup_cons.mp hh).1
    have hnd' : (rest.map Prod.fst).Nodup := by
      have hh : (k :: rest.map Prod.fst).Nodup := by simpa using hnd
      exact (List.nodup_cons.mp hh).2
    rcases List.mem_cons.mp hm with heq | hmem
    · have h1 : id = k := congrArg Prod.fst heq
      have h2 : x :: xs = l := congrArg Prod.snd heq
      subst h1
      subst h2
      obtain ⟨t1, t2, t3, t4⟩ := trajStep_hit s id x xs hc
      rcases hst : TrajectoryMonitor.trajStep s (id, x :: xs) with ⟨s', err⟩
      rw [hst] at t1 t2 t3 t4
      subst t4
      have hu : TrajectoryMonitor.updateDisplay s ((id, x :: xs) :: rest) =
          TrajectoryMonitor.updateDisplay s' rest := by
        simp [TrajectoryMonitor.updateDisplay, hst]
      rw [hu]
      obtain ⟨p1, p2, p3⟩ := updateDisplay_frame id rest s' hkn
      exact ⟨p1.trans t1, p2.trans t2, p3.trans t3⟩
    · have hk : k ≠ id := by
        intro hh
        exact hkn (hh ▸ List.mem_map_of_mem Prod.fst hmem)
      have hb : trajEntryBenign s (k, l) := hg (k, l) (List.mem_cons_self _ _)
      rcases hst : TrajectoryMonitor.trajStep s (k, l) with ⟨s', err⟩
      have herr : err = none := by
        have hh := trajStep_benign s (k, l) hb
        rw [hst] at hh
        exact hh
      subst herr
      have hcfg : s'.configured = s.configured := by
        have hh := trajStep_configured s (k, l)
        rw [hst] at hh
        exact hh
      have hu : TrajectoryMonitor.updateDisplay s ((k, l) :: rest) =
          TrajectoryMonitor.updateDisplay s' rest := by
        simp [TrajectoryMonitor.updateDisplay, hst]
      rw [hu]
      refine ih s' hnd' (by rw [hcfg]; exact hc) (fun p hp => ?_) hmem
      exact (trajEntryBenign_congr s s' hcfg p).mpr (hg p (List.mem_cons_of_mem _ hp))

lemma updateDisplay_empty_entry (id : String) :
    ∀ (ps : List (String × List TrajectoryMonitor.Pos)) (s : TrajectoryMonitor.State),
      (ps.map Prod.fst).Nodup → (id, ([] : List TrajectoryMonitor.Pos)) ∈ ps →
      (TrajectoryMonitor.updateDisplay s ps).1.path id = s.path id ∧
      (TrajectoryMonitor.updateDisplay s ps).1.markerPos id = s.markerPos id ∧
      (TrajectoryMonitor.updateDisplay s ps).1.markerVisible id = s.markerVisible id := by
  intro ps
  induction ps with
  | nil => intro s _ hm; exact absurd hm (List.not_mem_nil _)
  | cons e rest ih =>
    intro s hnd hm
    obtain ⟨k, l⟩ := e
    have hkn : k ∉ rest.map Prod.fst := by
      have hh : (k :: rest.map Prod.fst).Nodup := by simpa using hnd
      exact (List.nodup_cons.mp hh).1
    have hnd' : (rest.map Prod.fst).Nodup := by
      have hh : (k :: rest.map Prod.fst).Nodup := by simpa using hnd
      exact (List.nodup_cons.mp hh).2
    rcases List.mem_cons.mp hm with heq | hmem
    · have h1 : id = k := congrArg Prod.fst heq
      have h2 : ([] : List TrajectoryMonitor.Pos) = l := congrArg Prod.snd heq
      subst h1
      subst h2
      have hstep : TrajectoryMonitor.trajStep s (id, ([] : List TrajectoryMonitor.Pos)) =
          (s, none) := rfl
      have hu : TrajectoryMonitor.updateDisplay s ((id, []) :: rest) =
          TrajectoryMonitor.updateDisplay s rest := by
        simp [TrajectoryMonitor.updateDisplay, hstep]
      rw [hu]
      exact updateDisplay_frame id rest s hkn
    · have hk : k ≠ id := by
        intro hh
        exact hkn (hh ▸ List.mem_map_of_mem Prod.fst hmem)
      obtain ⟨p1, p2, p3⟩ := trajStep_frame s (k, l) id hk
      rcases hst : TrajectoryMonitor.trajStep s (k, l) with ⟨s', err⟩
      rw [hst] at p1 p2 p3
      cases err with
      | none =>
        have hu : TrajectoryMonitor.updateDisplay s ((k, l) :: rest) =
            TrajectoryMonitor.updateDisplay s' rest := by
          simp [TrajectoryMonitor.updateDisplay, hst]
        rw [hu]
        obtain ⟨q1, q2, q3⟩ := ih s' hnd' hmem
        exact ⟨q1.trans p1, q2.trans p2, q3.trans p3⟩
      | some msg =>
        have hu : TrajectoryMonitor.updateDisplay s ((k, l) :: rest) = (s', some msg) := by
          simp [TrajectoryMonitor.updateDisplay, hst]
        rw [hu]
        exact ⟨p1, p2, p3⟩

/-- C5 counterexample: the guard uses the JavaScript `in` operator, so an
unconfigured "toString" entry with a non-empty list passes it, throws a
`TypeError` in the body and aborts the cycle — the configured unit later
in iteration order keeps its old path and hidden marker even though its
position list is non-empty, refuting the claimed replace/show behaviour. -/
theorem C5_counterexample :
    (("A") ∈ (TrajectoryMonitor.init (["A"])).configured) ∧
    ((("A"), [((3 : ℚ), (4 : ℚ))]) ∈
      [(("toString"), [((1 : ℚ), (2 : ℚ))]), (("A"), [((3 : ℚ), (4 : ℚ))])]) ∧
    ¬ ((TrajectoryMonitor.updateDisplay (TrajectoryMonitor.init (["A"]))
        [(("toString"), [((1 : ℚ), (2 : ℚ))]),
         (("A"), [((3 : ℚ), (4 : ℚ))])]).1.path ("A") = [((3 : ℚ), (4 : ℚ))]) ∧
    (TrajectoryMonitor.updateDisplay (TrajectoryMonitor.init (["A"]))
        [(("toString"), [((1 : ℚ), (2 : ℚ))]),
         (("A"), [((3 : ℚ), (4 : ℚ))])]).1.markerVisible ("A") = false := by
  exact ⟨by decide, by decide, by decide, by decide⟩

/-- C5 amended: for a tracked unit, an empty or absent position list
performs no update and marker visibility is monotonic, unconditionally.
The wholesale replace, marker move and show for a non-empty list hold
for every cycle without a throwing entry — an entry whose id is
unconfigured yet an inherited `Object.prototype` name with a non-empty
list throws, aborting the rest of the cycle (see the counterexample);
such a throw-free cycle also completes without error. -/
theorem C5_trajectory (s : TrajectoryMonitor.State)
    (positions : List (String × List TrajectoryMonitor.Pos)) (insId : String)
    (hnd : (positions.map Prod.fst).Nodup) (hc : insId ∈ s.configured) :
    ((∀ p ∈ positions, trajEntryBenign s p) →
       (TrajectoryMonitor.updateDisplay s positions).2 = none ∧
       (∀ (x : TrajectoryMonitor.Pos) (xs : List TrajectoryMonitor.Pos),
          (insId, x :: xs) ∈ positions →
          (TrajectoryMonitor.updateDisplay s positions).1.path insId = x :: xs ∧
          (TrajectoryMonitor.updateDisplay s positions).1.markerPos insId = x ∧
          (TrajectoryMonitor.updateDisplay s positions).1.markerVisible insId = true)) ∧
    ((insId ∉ positions.map Prod.fst ∨
        (insId, ([] : List TrajectoryMonitor.Pos)) ∈ positions) →
       (TrajectoryMonitor.updateDisplay s positions).1.path insId = s.path insId ∧
       (TrajectoryMonitor.updateDisplay s positions).1.markerPos insId =
         s.markerPos insId ∧
       (TrajectoryMonitor.updateDisplay s positions).1.markerVisible insId =
         s.markerVisible insId) ∧
    (s.markerVisible insId = true →
       (TrajectoryMonitor.updateDisplay s positions).1.markerVisible insId = true) := by
  refine ⟨fun hg => ⟨updateDisplay_good positions s hg,
            fun x xs hm => updateDisplay_hit insId x xs positions s hnd hc hg hm⟩,
          fun h => ?_,
          fun h => updateDisplay_visible_mono insId positions s h⟩
  rcases h with h | h
  · exact updateDisplay_frame insId positions s h
  · exact updateDisplay_empty_entry insId positions s hnd h

/-- Witness for C5 amended: one configured unit receiving one position in
a benign cycle. -/
theorem C5_trajectory_witness :
    (([(("A"), [((1 : ℚ), (2 : ℚ))])].map Prod.fst).Nodup) ∧
    (("A") ∈ (TrajectoryMonitor.init (["A"])).configured) ∧
    ((TrajectoryMonitor.updateDisplay (TrajectoryMonitor.init (["A"]))
        [(("A"), [((1 : ℚ), (2 : ℚ))])]).2 = none) ∧
    ((TrajectoryMonitor.updateDisplay (TrajectoryMonitor.init (["A"]))
        [(("A"), [((1 : ℚ), (2 : ℚ))])]).1.path ("A") = [((1 : ℚ), (2 : ℚ))] ∧
     (TrajectoryMonitor.updateDisplay (TrajectoryMonitor.init (["A"]))
        [(("A"), [((1 : ℚ), (2 : ℚ))])]).1.markerPos ("A") = ((1 : ℚ), (2 : ℚ)) ∧
     (TrajectoryMonitor.updateDisplay (TrajectoryMonitor.init (["A"]))
        [(("A"), [((1 : ℚ), (2 : ℚ))])]).1.markerVisible ("A") = true) :=
  ⟨by decide, by decide,
   ((C5_trajectory (TrajectoryMonitor.init (["A"])) [(("A"), [((1 : ℚ), (2 : ℚ))])] ("A")
       (by decide) (by decide)).1 (by decide)).1,
   ((C5_trajectory (TrajectoryMonitor.init (["A"])) [(("A"), [((1 : ℚ), (2 : ℚ))])] ("A")
       (by decide) (by decide)).1 (by decide)).2 ((1 : ℚ), (2 : ℚ)) [] (by decide)⟩

/-- C9 counterexample: a unit id absent from the configuration is not
always ignored without error — "toString" is inherited from
`Object.prototype`, passes the `in` guard, and its non-empty list makes
the body throw a `TypeError`, aborting the cycle. -/
theorem C9_counterexample :
    (("toString") ∉ (TrajectoryMonitor.init (["A"])).configured) ∧
    ((TrajectoryMonitor.updateDisplay (TrajectoryMonitor.init (["A"]))
        [(("toString"), [((1 : ℚ), (2 : ℚ))])]).2).isSome = true := by
  exact ⟨by decide, by decide⟩

/-- C9 amended: the set of per-unit trajectories and markers is fixed at
init — a cycle never changes the configured id set and never writes the
path, marker position or visibility of an unconfigured id.  An
unconfigured id that is not an inherited `Object.prototype` property
name is ignored without error (a cycle of such entries completes with no
error), but an unconfigured id matching an inherited name with a
non-empty list passes the `in` guard, throws a `TypeError` and aborts
the rest of the cycle. -/
theorem C9_trajectory_fixed_at_init (s : TrajectoryMonitor.State)
    (positions : List (String × List TrajectoryMonitor.Pos)) :
    (TrajectoryMonitor.updateDisplay s positions).1.configured = s.configured ∧
    (∀ insId : String, insId ∉ s.configured →
       (TrajectoryMonitor.updateDisplay s positions).1.path insId = s.path insId ∧
       (TrajectoryMonitor.updateDisplay s positions).1.markerPos insId =
         s.markerPos insId ∧
       (TrajectoryMonitor.updateDisplay s positions).1.markerVisible insId =
         s.markerVisible insId) ∧
    ((∀ p ∈ positions, trajEntryBenign s p) →
       (TrajectoryMonitor.updateDisplay s positions).2 = none) ∧
    ((∃ p ∈ positions, ¬ trajEntryBenign s p) →
       ((TrajectoryMonitor.updateDisplay s positions).2).isSome = true) :=
  ⟨updateDisplay_configured positions s,
   fun insId h => updateDisplay_unconfigured insId positions s h,
   fun hg => updateDisplay_good positions s hg,
   fun hb => updateDisplay_bad positions s hb⟩

/-- Witness for C9 amended: an unconfigured, non-inherited id is ignored
without error and without any write to its slots. -/
theorem C9_trajectory_fixed_at_init_witness :
    (("B") ∉ (TrajectoryMonitor.init (["A"])).configured) ∧
    ((TrajectoryMonitor.updateDisplay (TrajectoryMonitor.init (["A"]))
        [(("B"), [((1 : ℚ), (2 : ℚ))])]).1.configured =
      (TrajectoryMonitor.init (["A"])).configured) ∧
    ((TrajectoryMonitor.updateDisplay (TrajectoryMonitor.init (["A"]))
        [(("B"), [((1 : ℚ), (2 : ℚ))])]).1.path ("B") =
      (TrajectoryMonitor.init (["A"])).path ("B") ∧
     (TrajectoryMonitor.updateDisplay (TrajectoryMonitor.init (["A"]))
        [(("B"), [((1 : ℚ), (2 : ℚ))])]).1.markerPos ("B") =
      (TrajectoryMonitor.init (["A"])).markerPos ("B") ∧
     (TrajectoryMonitor.updateDisplay (TrajectoryMonitor.init (["A"]))
        [(("B"), [((1 : ℚ), (2 : ℚ))])]).1.markerVisible ("B") =
      (TrajectoryMonitor.init (["A"])).markerVisible ("B")) ∧
    ((TrajectoryMonitor.updateDisplay (TrajectoryMonitor.init (["A"]))
        [(("B"), [((1 : ℚ), (2 : ℚ))])]).2 = none) :=
  ⟨by decide,
   (C9_trajectory_fixed_at_init (TrajectoryMonitor.init (["A"]))
      [(("B"), [((1 : ℚ), (2 : ℚ))])]).1,
   (C9_trajectory_fixed_at_init (TrajectoryMonitor.init (["A"]))
      [(("B"), [((1 : ℚ), (2 : ℚ))])]).2.1 ("B") (by decide),
   (C9_trajectory_fixed_at_init (TrajectoryMonitor.init (["A"]))
      [(("B"), [((1 : ℚ), (2 : ℚ))])]).2.2.1 (by decide)⟩

/-- C2 counterexample: the cycle writes the offline unit's timestamp slot
(`timestamp-<id>`), which is neither its status indicator nor its error
slot, so the claim that no other slot of the unit is written is false. -/
theorem C2_counterexample :
    WriteOp.setText ("timestamp-A") ("Last update : 2025-09-08") ∈
      (INSMonitor.updateDisplay
        [(("A"), ⟨⟨false, some ("timeout"), none, none, none, none, none⟩,
          "2025-09-08"⟩)]).1 ∧
    ("timestamp-A") ≠ ("status-A") ∧ ("timestamp-A") ≠ ("error-A") := by
  exact ⟨by decide, by decide, by decide⟩

lemma unitCycleOps_offline (insId : String) (td : TimedData)
    (h : td.data.online = false) :
    INSMonitor.unitCycleOps insId td =
      ([WriteOp.setClass ("status-" ++ insId) ("status-indicator " ++ ("status-offline"))] ++
       (if jsTruthyStrOpt td.data.error_message then
          [WriteOp.setText ("error-" ++ insId)
             ("Erreur: " ++ td.data.error_message.getD ("")),
           WriteOp.setDisplay ("error-" ++ insId) ("block")]
        else [WriteOp.setDisplay ("error-" ++ insId) ("none")]) ++
       [updateElementOp ("timestamp-" ++ insId)
          (JsVal.str ("Last update : " ++ td.timestamp))], none) := by
  by_cases hm : jsTruthyStrOpt td.data.error_message
  · simp [INSMonitor.unitCycleOps, INSMonitor.updateINSCard, h, hm]
  · simp [INSMonitor.unitCycleOps, INSMonitor.updateINSCard, h, hm]

/-- C2 amended: an offline unit's cycle writes exactly three of that
unit's slots — the status indicator, the error slot (text and
display:block iff the error message is truthy, display:none otherwise)
and the timestamp slot; every other slot of the page keeps its previous
value. -/
theorem C2_offline_freeze (insId : String) (td : TimedData)
    (h : td.data.online = false) :
    (INSMonitor.unitCycleOps insId td).2 = none ∧
    (∀ op ∈ (INSMonitor.unitCycleOps insId td).1,
       op.target = "status-" ++ insId ∨ op.target = "error-" ++ insId ∨
       op.target = "timestamp-" ++ insId) ∧
    (jsTruthyStrOpt td.data.error_message = true →
       WriteOp.setText ("error-" ++ insId)
           ("Erreur: " ++ td.data.error_message.getD ("")) ∈
         (INSMonitor.unitCycleOps insId td).1 ∧
       WriteOp.setDisplay ("error-" ++ insId) ("block") ∈
         (INSMonitor.unitCycleOps insId td).1) ∧
    (jsTruthyStrOpt td.data.error_message = false →
       WriteOp.setDisplay ("error-" ++ insId) ("none") ∈
         (INSMonitor.unitCycleOps insId td).1) ∧
    (∀ (dom : Dom) (id : String),
       id ≠ "status-" ++ insId → id ≠ "error-" ++ insId → id ≠ "timestamp-" ++ insId →
       domGet (applyOps dom (INSMonitor.unitCycleOps insId td).1) id = domGet dom id) := by
  rw [unitCycleOps_offline insId td h]
  by_cases hm : jsTruthyStrOpt td.data.error_message
  · rw [if_pos hm]
    refine ⟨rfl, ?_, fun hma => ⟨?_, ?_⟩, fun hmf => ?_, ?_⟩
    · intro op hop
      simp only [List.mem_append, List.mem_cons, List.not_mem_nil, or_false] at hop
      rcases hop with ((rfl | rfl | rfl) | rfl)
      · exact Or.inl rfl
      · exact Or.inr (Or.inl rfl)
      · exact Or.inr (Or.inl rfl)
      · exact Or.inr (Or.inr rfl)
    · simp
    · simp
    · exact absurd hm (by simp [hmf])
    · intro dom id hs he ht
      apply applyOps_target_ne
      intro op hop
      simp only [List.mem_append, List.mem_cons, List.not_mem_nil, or_false] at hop
      rcases hop with ((rfl | rfl | rfl) | rfl)
      · exact fun hh => hs hh.symm
      · exact fun hh => he hh.symm
      · exact fun hh => he hh.symm
      · exact fun hh => ht hh.symm
  · rw [if_neg hm]
    refine ⟨rfl, ?_, fun hma => absurd hma hm, fun hmf => ?_, ?_⟩
    · intro op hop
      simp only [List.mem_append, List.mem_cons, List.not_mem_nil, or_false] at hop
      rcases hop with ((rfl | rfl) | rfl)
      · exact Or.inl rfl
      · exact Or.inr (Or.inl rfl)
      · exact Or.inr (Or.inr rfl)
    · simp
    · intro dom id hs he ht
      apply applyOps_target_ne
      intro op hop
      simp only [List.mem_append, List.mem_cons, List.not_mem_nil, or_false] at hop
      rcases hop with ((rfl | rfl) | rfl)
      · exact fun hh => hs hh.symm
      · exact fun hh => he hh.symm
      · exact fun hh => ht hh.symm

/-- Witness for C2 amended at a concrete offline record with a truthy
error message. -/
theorem C2_offline_freeze_witness :
    ((⟨⟨false, some ("boom"), none, none, none, none, none⟩, "t0"⟩ : TimedData).data.online
      = false) ∧
    (INSMonitor.unitCycleOps ("A")
      (⟨⟨false, some ("boom"), none, none, none, none, none⟩, "t0"⟩ : TimedData)).2 = none ∧
    WriteOp.setDisplay ("error-" ++ ("A")) ("block") ∈
      (INSMonitor.unitCycleOps ("A")
        (⟨⟨false, some ("boom"), none, none, none, none, none⟩, "t0"⟩ : TimedData)).1 :=
  ⟨rfl,
   (C2_offline_freeze ("A")
     (⟨⟨false, some ("boom"), none, none, none, none, none⟩, "t0"⟩ : TimedData) rfl).1,
   ((C2_offline_freeze ("A")
     (⟨⟨false, some ("boom"), none, none, none, none, none⟩, "t0"⟩ : TimedData) rfl).2.2.1
     (by decide)).2⟩

/-- C7: for every online unit, the aiding sub-panel renders one
used/not-used glyph per constituent flag of the status block, and the
visibility of every GNSS-1 (resp. GNSS-2) specific constituent row
follows that channel's own enabled flag — so a row referencing a
disabled channel is hidden even when the constituent flag is true. -/
theorem C7_ins_solution (insId : String) (st : StatusBlock) (n : String) (b : Bool)
    (hm : (n, b) ∈ st.ins.constituents) :
    (WriteOp.setText ("ekf-solution-" ++ n ++ "-" ++ insId)
         (if b then ("✓") else ("✗")) ∈ INSMonitor.updateInsSolution insId st ∧
     WriteOp.setClass ("ekf-solution-" ++ n ++ "-" ++ insId)
         ("ekf-status-icon " ++ (if b then ("ekf-status-ok") else ("ekf-status-ko"))) ∈
       INSMonitor.updateInsSolution insId st) ∧
    (containsSub ("gnss1") n = true →
       WriteOp.setDisplay ("ekf-solution-item-" ++ n ++ "-" ++ insId)
           (if st.aiding.gnss1.enabled then ("flex") else ("none")) ∈
         INSMonitor.updateInsSolution insId st) ∧
    (containsSub ("gnss2") n = true →
       WriteOp.setDisplay ("ekf-solution-item-" ++ n ++ "-" ++ insId)
           (if st.aiding.gnss2.enabled then ("flex") else ("none")) ∈
         INSMonitor.updateInsSolution insId st) := by
  have hlen : (INSMonitor.insEntries st.ins).length > 0 := by
    simp [INSMonitor.insEntries]
  have hupd : INSMonitor.updateInsSolution insId st =
      ((INSMonitor.insEntries st.ins).map
        (INSMonitor.insSolutionEntryOps insId st.aiding)).flatten := by
    simp [INSMonitor.updateInsSolution, hlen]
  have hment : (n, b) ∈ INSMonitor.insEntries st.ins :=
    List.mem_cons_of_mem _ (List.mem_cons_of_mem _ hm)
  have hchunk : INSMonitor.insSolutionEntryOps insId st.aiding (n, b) ∈
      (INSMonitor.insEntries st.ins).map (INSMonitor.insSolutionEntryOps insId st.aiding) :=
    List.mem_map_of_mem _ hment
  have hsub : ∀ op ∈ INSMonitor.insSolutionEntryOps insId st.aiding (n, b),
      op ∈ INSMonitor.updateInsSolution insId st := by
    intro op hop
    rw [hupd]
    exact List.mem_flatten.mpr ⟨_, hchunk, hop⟩
  refine ⟨⟨hsub _ ?_, hsub _ ?_⟩, fun hg => hsub _ ?_, fun hg => hsub _ ?_⟩
  · simp [INSMonitor.insSolutionEntryOps]
  · simp [INSMonitor.insSolutionEntryOps]
  · simp [INSMonitor.insSolutionEntryOps, hg]
  · simp [INSMonitor.insSolutionEntryOps, hg]

/-- Witness for C7: a true `gnss1Pos` constituent whose row is
nonetheless hidden because channel GNSS-1 is disabled. -/
theorem C7_ins_solution_witness :
    ((("gnss1Pos"), true) ∈
      ((⟨⟨"valid", "ok"⟩, ⟨"rtkFixed", true, [(("gnss1Pos"), true)]⟩,
        ⟨⟨false⟩, ⟨true⟩⟩⟩ : StatusBlock)).ins.constituents) ∧
    (containsSub ("gnss1") ("gnss1Pos") = true) ∧
    WriteOp.setDisplay ("ekf-solution-item-" ++ ("gnss1Pos") ++ "-" ++ ("A")) ("none") ∈
      INSMonitor.updateInsSolution ("A")
        (⟨⟨"valid", "ok"⟩, ⟨"rtkFixed", true, [(("gnss1Pos"), true)]⟩,
          ⟨⟨false⟩, ⟨true⟩⟩⟩ : StatusBlock) :=
  ⟨by decide, by decide,
   (C7_ins_solution ("A")
      (⟨⟨"valid", "ok"⟩, ⟨"rtkFixed", true, [(("gnss1Pos"), true)]⟩,
        ⟨⟨false⟩, ⟨true⟩⟩⟩ : StatusBlock) ("gnss1Pos") true (by decide)).2.1 (by decide)⟩

/-- C4 counterexample: an online record with a missing status block does
not complete the remaining sub-panels with placeholders — the render
throws right after the status indicator and error slot, emitting nothing
else. -/
theorem C4_counterexample :
    (INSMonitor.updateINSCard ("A")
        ⟨true, none, none, some ⟨"t", none⟩, none, none, none⟩).2 ≠ none ∧
    (INSMonitor.updateINSCard ("A")
        ⟨true, none, none, some ⟨"t", none⟩, none, none, none⟩).1 =
      [WriteOp.setClass ("status-A") ("status-indicator status-online"),
       WriteOp.setDisplay ("error-A") ("none")] := by
  exact ⟨by decide, by decide⟩

lemma updateDataLogger_none (insId : String) :
    INSMonitor.updateDataLogger insId none =
      [WriteOp.setText ("datalogger-status-" ++ insId) ("--"),
       WriteOp.setText ("datalogger-mode-" ++ insId) ("--"),
       WriteOp.setText ("datalogger-space-" ++ insId) ("--")] := rfl

/-- C4 amended: per-slot placeholder degradation holds for the optional
blocks the renderer guards (a falsy data-logger block renders the
placeholder in each of its three slots, a nullish `ekf` renders
placeholders in the EKF position slots, a missing GNSS block skips that
channel), and the rest of the unit's render completes; but a missing
status block or a missing measurement block is dereferenced without a
guard, throws, and aborts the rest of that unit's render. -/
theorem C4_partial_record (insId : String) (em : Option String) (st : StatusBlock)
    (m : InsMeasurement) (g1 g2 : Option GnssMeasurement)
    (h1 : (INSMonitor.updateGNSSMeasurements insId 1 g1).2 = none)
    (h2 : (INSMonitor.updateGNSSMeasurements insId 2 g2).2 = none) :
    ((INSMonitor.updateINSCard insId ⟨true, em, some st, some m, none, g1, g2⟩).2 = none ∧
     WriteOp.setText ("datalogger-status-" ++ insId) ("--") ∈
       (INSMonitor.updateINSCard insId ⟨true, em, some st, some m, none, g1, g2⟩).1 ∧
     WriteOp.setText ("datalogger-mode-" ++ insId) ("--") ∈
       (INSMonitor.updateINSCard insId ⟨true, em, some st, some m, none, g1, g2⟩).1 ∧
     WriteOp.setText ("datalogger-space-" ++ insId) ("--") ∈
       (INSMonitor.updateINSCard insId ⟨true, em, some st, some m, none, g1, g2⟩).1 ∧
     (m.ekf = none →
       WriteOp.setText ("ekf-lat-" ++ insId) ("--") ∈
         (INSMonitor.updateINSCard insId ⟨true, em, some st, some m, none, g1, g2⟩).1)) ∧
    (∀ dl : Option DataLogger,
       (INSMonitor.updateINSCard insId ⟨true, em, none, some m, dl, g1, g2⟩).2.isSome
         = true) ∧
    (∀ dl : Option DataLogger,
       (INSMonitor.updateINSCard insId ⟨true, em, some st, none, dl, g1, g2⟩).2.isSome
         = true) := by
  rcases hg1 : INSMonitor.updateGNSSMeasurements insId 1 g1 with ⟨ops1, e1⟩
  rcases hg2 : INSMonitor.updateGNSSMeasurements insId 2 g2 with ⟨ops2, e2⟩
  rw [hg1] at h1
  rw [hg2] at h2
  have h1' : e1 = none := h1
  have h2' : e2 = none := h2
  subst h1'
  subst h2'
  refine ⟨⟨?_, ?_, ?_, ?_, ?_⟩, ?_, ?_⟩
  · simp [INSMonitor.updateINSCard, hg1, hg2]
  · simp [INSMonitor.updateINSCard, hg1, hg2, updateDataLogger_none]
  · simp [INSMonitor.updateINSCard, hg1, hg2, updateDataLogger_none]
  · simp [INSMonitor.updateINSCard, hg1, hg2, updateDataLogger_none]
  · intro hekf
    have e5 : updateElementOp ("ekf-lat-" ++ insId) (JsVal.str (formatCoordinate none)) =
        WriteOp.setText ("ekf-lat-" ++ insId) ("--") := rfl
    simp [INSMonitor.updateINSCard, hg1, hg2, INSMonitor.updateEkfMeasurements, hekf,
      Option.none_bind, e5]
  · intro dl
    simp [INSMonitor.updateINSCard]
  · intro dl
    simp [INSMonitor.updateINSCard]

/-- Witness for C4 amended: a record with both GNSS channels absent, no
data-logger block and no ekf block completes with placeholders; dropping
the status block instead aborts. -/
theorem C4_partial_record_witness :
    ((INSMonitor.updateGNSSMeasurements ("A") 1 none).2 = none) ∧
    ((INSMonitor.updateINSCard ("A")
        ⟨true, none, some ⟨⟨"valid", "ok"⟩, ⟨"sbas", true, []⟩, ⟨⟨false⟩, ⟨false⟩⟩⟩,
         some ⟨"2025", none⟩, none, none, none⟩).2 = none) ∧
    (WriteOp.setText ("datalogger-status-" ++ ("A")) ("--") ∈
      (INSMonitor.updateINSCard ("A")
        ⟨true, none, some ⟨⟨"valid", "ok"⟩, ⟨"sbas", true, []⟩, ⟨⟨false⟩, ⟨false⟩⟩⟩,
         some ⟨"2025", none⟩, none, none, none⟩).1) ∧
    (WriteOp.setText ("ekf-lat-" ++ ("A")) ("--") ∈
      (INSMonitor.updateINSCard ("A")
        ⟨true, none, some ⟨⟨"valid", "ok"⟩, ⟨"sbas", true, []⟩, ⟨⟨false⟩, ⟨false⟩⟩⟩,
         some ⟨"2025", none⟩, none, none, none⟩).1) ∧
    ((INSMonitor.updateINSCard ("A")
        ⟨true, none, none, some ⟨"2025", none⟩, none, none, none⟩).2.isSome = true) :=
  ⟨rfl,
   (C4_partial_record ("A") none ⟨⟨"valid", "ok"⟩, ⟨"sbas", true, []⟩, ⟨⟨false⟩, ⟨false⟩⟩⟩
      ⟨"2025", none⟩ none none rfl rfl).1.1,
   (C4_partial_record ("A") none ⟨⟨"valid", "ok"⟩, ⟨"sbas", true, []⟩, ⟨⟨false⟩, ⟨false⟩⟩⟩
      ⟨"2025", none⟩ none none rfl rfl).1.2.1,
   (C4_partial_record ("A") none ⟨⟨"valid", "ok"⟩, ⟨"sbas", true, []⟩, ⟨⟨false⟩, ⟨false⟩⟩⟩
      ⟨"2025", none⟩ none none rfl rfl).1.2.2.2.2 rfl,
   (C4_partial_record ("A") none ⟨⟨"valid", "ok"⟩, ⟨"sbas", true, []⟩, ⟨⟨false⟩, ⟨false⟩⟩⟩
      ⟨"2025", none⟩ none none rfl rfl).2.1 none⟩
